import Mathlib

/-!
Verification development for the Kridha production scoring engine.

This file shallowly embeds the engine's data model and scoring pipeline
(`engine/schemas.py`, `engine/rules_data.py`, `engine/fabric_gate.py`,
`engine/body_garment_translator.py`, `engine/garment_types.py`,
`engine/goal_scorers.py`, `engine/kridha_engine.py`) into Lean and proves
properties of the embedding.

Modelling conventions:
* Python floats are modelled as exact rationals (`ℚ`); `math.pi` is embedded
  as the exact rational value of the IEEE-754 double `math.pi`.
* Free-text reasoning strings are abstracted to the single bit that the
  pipeline inspects: whether the string contains the substring "n/a"
  (case-insensitively).  Each scorer returns `(score, na)` where `na` is
  `true` exactly at the return sites whose Python reasoning text contains
  "N/A".
* `Dict` lookups become association-list lookups with the same defaults.
* Python's in-place mutation of `garment.category` is modelled by returning
  the updated garment alongside the result (`score_garment_full`).
-/

set_option allowUnsafeReducibility true
attribute [semireducible] Rat.add Rat.mul Rat.inv Rat.sub Rat.ofScientific

namespace Kridha

/-- A structural-recursion character map over strings.  (Lean's own
`String.map` is defined by well-founded recursion, which does not reduce
definitionally; mapping over the underlying character list is
extensionally identical and computes.) -/
def strMap (f : Char → Char) (s : String) : String := ⟨s.data.map f⟩

/-- Exact rational value of the IEEE-754 double `math.pi` used by the Python
engine (3.141592653589793115997963468544185161590576171875). -/
def pi_q : ℚ := 884279719003555 / 281474976710656

/-- `clamp` from `engine/schemas.py`: clamp a value to `[lo, hi]`. -/
def clamp (v lo hi : ℚ) : ℚ := max lo (min hi v)

/-- `clamp` with its Python default bounds `[-1, 1]`. -/
def clamp1 (v : ℚ) : ℚ := clamp v (-1) 1

/-- Python's `round(x, d)` modelled on rationals: round `x · 10^d` to the
nearest integer and scale back.  (Mathlib's `round` rounds half up while
Python rounds half to even; the two agree except on exact decimal ties.) -/
def pyRound (d : ℕ) (x : ℚ) : ℚ := (round (x * 10 ^ d) : ℤ) / 10 ^ d

/-- `score_to_ten` from `engine/schemas.py`: −1 → 0, 0 → 5, +1 → 10. -/
def score_to_ten (raw : ℚ) : ℚ := clamp raw (-1) 1 * 5 + 5

/-- `_RESCALE_BREAKPOINTS` from `engine/schemas.py`:
`(raw_lo, raw_hi, display_lo, display_hi)` segments. -/
def rescaleBreakpoints : List (ℚ × ℚ × ℚ × ℚ) :=
  [ (0,   3.5,  0,   0.5),
    (3.5, 4,    0.5, 1),
    (4,   4.4,  1,   4),
    (4.4, 5,    4,   5.5),
    (5,   5.5,  5.5, 7),
    (5.5, 5.8,  7,   8),
    (5.8, 6.3,  8,   9.5),
    (6.3, 10,   9.5, 10) ]

/-- `rescale_display` from `engine/schemas.py`: piecewise-linear stretch of
the compressed 0-10 engine scale.  Returns 10.0 past the last segment. -/
def rescale_display (raw_ten : ℚ) : ℚ :=
  let step : Option ℚ → ℚ × ℚ × ℚ × ℚ → Option ℚ := fun acc seg =>
    match acc with
    | some v => some v
    | none =>
      let (raw_lo, raw_hi, disp_lo, disp_hi) := seg
      if raw_ten ≤ raw_hi then
        if raw_hi = raw_lo then some disp_lo
        else some (disp_lo + (raw_ten - raw_lo) / (raw_hi - raw_lo) * (disp_hi - disp_lo))
      else none
  (rescaleBreakpoints.foldl step none).getD 10

-- ================================================================
-- ENUMS (engine/schemas.py)
-- ================================================================

/-- `BodyShape` enum. -/
inductive BodyShape where
  | pear | apple | hourglass | rectangle | inverted_triangle
deriving Repr, DecidableEq

/-- `StylingGoal` enum (including the legacy domain-4 goals). -/
inductive StylingGoal where
  | look_taller | highlight_waist | hide_midsection | slim_hips
  | look_proportional | minimize_arms
  | slimming | concealment | emphasis | balance
deriving Repr, DecidableEq

/-- `SkinUndertone` enum. -/
inductive SkinUndertone where
  | warm | cool | neutral
deriving Repr, DecidableEq

/-- `FabricConstruction` enum. -/
inductive FabricConstruction where
  | woven | knit | knit_rib | knit_double | knit_jersey
deriving Repr, DecidableEq

/-- `SurfaceFinish` enum. -/
inductive SurfaceFinish where
  | deep_matte | matte | subtle_sheen | moderate_sheen
  | high_shine | maximum_shine | crushed
deriving Repr, DecidableEq

/-- `Silhouette` enum. -/
inductive Silhouette where
  | fitted | semi_fitted | a_line | empire | wrap | shift
  | peplum | fit_and_flare | oversized | architectural
deriving Repr, DecidableEq

/-- `SleeveType` enum. -/
inductive SleeveType where
  | sleeveless | cap | short | three_quarter | long
  | raglan | dolman | puff | flutter | bell | set_in
deriving Repr, DecidableEq

/-- `NecklineType` enum. -/
inductive NecklineType where
  | v_neck | deep_v | scoop | crew | boat | square
  | off_shoulder | halter | cowl | turtleneck | wrap
deriving Repr, DecidableEq

/-- `GarmentCategory` enum. -/
inductive GarmentCategory where
  | dress | top | bottom_pants | bottom_shorts | skirt
  | jumpsuit | romper | jacket | coat | sweatshirt
  | cardigan | vest | bodysuit | loungewear | activewear
  | saree | salwar_kameez | lehenga
deriving Repr, DecidableEq

/-- `TopHemBehavior` enum. -/
inductive TopHemBehavior where
  | tucked | half_tucked | untucked_at_hip | untucked_below_hip
  | cropped | bodysuit
deriving Repr, DecidableEq

/-- The `.value` string of a `NecklineType`, as used by `_neckline_str` in
`engine/kridha_engine.py`. -/
def necklineStr : NecklineType → String
  | .v_neck => "v_neck" | .deep_v => "deep_v" | .scoop => "scoop"
  | .crew => "crew" | .boat => "boat" | .square => "square"
  | .off_shoulder => "off_shoulder" | .halter => "halter"
  | .cowl => "cowl" | .turtleneck => "turtleneck" | .wrap => "wrap"

/-- The `.value` string of a `FabricConstruction`. -/
def constructionStr : FabricConstruction → String
  | .woven => "woven" | .knit => "knit" | .knit_rib => "knit_rib"
  | .knit_double => "knit_double" | .knit_jersey => "knit_jersey"

/-- The `.value` string of a `SurfaceFinish`. -/
def surfaceStr : SurfaceFinish → String
  | .deep_matte => "deep_matte" | .matte => "matte"
  | .subtle_sheen => "subtle_sheen" | .moderate_sheen => "moderate_sheen"
  | .high_shine => "high_shine" | .maximum_shine => "maximum_shine"
  | .crushed => "crushed"

/-- The `.value` string of a `GarmentCategory`. -/
def categoryStr : GarmentCategory → String
  | .dress => "dress" | .top => "top" | .bottom_pants => "bottom_pants"
  | .bottom_shorts => "bottom_shorts" | .skirt => "skirt"
  | .jumpsuit => "jumpsuit" | .romper => "romper" | .jacket => "jacket"
  | .coat => "coat" | .sweatshirt => "sweatshirt" | .cardigan => "cardigan"
  | .vest => "vest" | .bodysuit => "bodysuit" | .loungewear => "loungewear"
  | .activewear => "activewear" | .saree => "saree"
  | .salwar_kameez => "salwar_kameez" | .lehenga => "lehenga"

-- ================================================================
-- INPUT: BODY PROFILE (engine/schemas.py)
-- ================================================================

/-- `BodyProfile` from `engine/schemas.py`.  Fields never read by any
embedded function (e.g. `inseam`, `neck_length`, climate context) are
omitted; all retained fields keep their Python defaults. -/
structure BodyProfile where
  height : ℚ := 66
  bust : ℚ := 36
  underbust : ℚ := 32
  waist : ℚ := 30
  hip : ℚ := 38
  shoulder_width : ℚ := 15.5
  torso_length : ℚ := 15
  leg_length_visual : ℚ := 41
  arm_length : ℚ := 23
  c_upper_arm_max : ℚ := 12
  c_upper_arm_max_position : ℚ := 3
  c_elbow : ℚ := 10
  c_forearm_max : ℚ := 9.5
  c_forearm_min : ℚ := 8.5
  c_forearm_min_position : ℚ := 17
  c_wrist : ℚ := 6.5
  h_knee : ℚ := 18
  h_calf_max : ℚ := 14
  h_calf_min : ℚ := 10
  h_ankle : ℚ := 4
  c_thigh_max : ℚ := 22
  c_calf_max : ℚ := 14.5
  c_calf_min : ℚ := 9
  c_ankle : ℚ := 8.5
  belly_projection : ℚ := 1
  skin_tone_L : ℚ := 50
  skin_undertone : SkinUndertone := .neutral
  skin_darkness : ℚ := 0.5
  belly_zone : ℚ := 0
  hip_zone : ℚ := 0
  is_athletic : Bool := false
  styling_goals : List StylingGoal := []
  goal_bust : Option String := none
  goal_hip : Option String := none
  goal_legs : Option String := none
deriving DecidableEq

namespace BodyProfile

/-- `whr` derived property: waist / hip, defaulting to 0.80. -/
def whr (b : BodyProfile) : ℚ := if b.hip > 0 then b.waist / b.hip else 0.80

/-- `bust_differential` derived property: bust − underbust. -/
def bust_differential (b : BodyProfile) : ℚ := b.bust - b.underbust

/-- `shoulder_hip_diff` derived property. -/
def shoulder_hip_diff (b : BodyProfile) : ℚ := b.shoulder_width - b.hip / pi_q

/-- `leg_ratio` derived property (visual leg length / height). -/
def leg_ratio_v (b : BodyProfile) : ℚ :=
  if b.height > 0 then b.leg_length_visual / b.height else 0.62

/-- `torso_leg_ratio` derived property. -/
def torso_leg_ratio_v (b : BodyProfile) : ℚ :=
  if b.leg_length_visual > 0 then b.torso_length / b.leg_length_visual else 0.37

/-- `is_petite` derived property: height < 63". -/
def is_petite (b : BodyProfile) : Bool := b.height < 63

/-- `is_tall` derived property: height > 68". -/
def is_tall (b : BodyProfile) : Bool := b.height > 68

/-- `is_plus_size` derived property: bust > 42" or hip > 44". -/
def is_plus_size (b : BodyProfile) : Bool := b.bust > 42 || b.hip > 44

/-- `body_shape` derived property: body-shape classification from
measurements (`engine/schemas.py` lines 292–312). -/
def body_shape (b : BodyProfile) : BodyShape :=
  let bwd := b.bust - b.waist
  let hwd := b.hip - b.waist
  let shr := if b.hip > 0 then b.shoulder_width / (b.hip / pi_q) else 1
  if bwd ≥ 7 ∧ hwd ≥ 7 ∧ 0.85 ≤ shr ∧ shr ≤ 1.15 then .hourglass
  else if hwd ≥ 7 ∧ hwd > bwd + 2 ∧ shr < 1.05 then .pear
  else if bwd < 5 ∧ hwd < 5 ∧ b.whr > 0.85 then .apple
  else if b.shoulder_hip_diff > 3 then .inverted_triangle
  else .rectangle

/-- `torso_score` derived property: −2 (very short torso) to +2. -/
def torso_score (b : BodyProfile) : ℚ :=
  let ratio := if b.height > 0 then b.torso_length / b.height else 0.23
  (ratio - 0.23) / 0.02

/-- `calf_prominence` derived property. -/
def calf_prominence (b : BodyProfile) : ℚ :=
  if b.c_calf_min > 0 then b.c_calf_max / b.c_calf_min else 1

/-- `arm_prominence_combined` derived property. -/
def arm_prominence_combined (b : BodyProfile) : ℚ :=
  if b.c_wrist ≤ 0 ∨ b.c_forearm_min ≤ 0 then 1.5
  else
    let prominence := b.c_upper_arm_max / b.c_wrist
    let bulge := b.c_upper_arm_max / b.c_forearm_min
    (prominence + bulge) / 2

end BodyProfile

-- ================================================================
-- INPUT: GARMENT PROFILE (engine/schemas.py)
-- ================================================================

/-- `GarmentProfile` from `engine/schemas.py`.  Fields never read by any
embedded function (pattern metadata, brand tier, model size, layer enum,
ease, darts, faux-wrap, covers_hips, saturation/temperature) are omitted;
retained fields keep their Python defaults. -/
structure GarmentProfile where
  primary_fiber : String := "polyester"
  elastane_pct : ℚ := 0
  fabric_name : Option String := none
  construction : FabricConstruction := .woven
  gsm_estimated : ℚ := 150
  surface : SurfaceFinish := .matte
  surface_friction : ℚ := 0.5
  drape : ℚ := 5
  category : GarmentCategory := .dress
  silhouette : Silhouette := .semi_fitted
  expansion_rate : ℚ := 0.05
  silhouette_label : String := "fitted"
  neckline : NecklineType := .crew
  v_depth_cm : ℚ := 0
  neckline_depth : Option ℚ := none
  sleeve_type : SleeveType := .set_in
  sleeve_length_inches : Option ℚ := none
  sleeve_ease_inches : ℚ := 1
  rise_cm : Option ℚ := none
  waistband_width_cm : ℚ := 3
  waistband_stretch_pct : ℚ := 5
  waist_position : String := "natural"
  has_waist_definition : Bool := false
  hem_position : String := "knee"
  garment_length_inches : Option ℚ := none
  covers_waist : Bool := true
  zone : String := "torso"
  color_lightness : ℚ := 0.5
  is_monochrome_outfit : Bool := false
  has_horizontal_stripes : Bool := false
  has_vertical_stripes : Bool := false
  stripe_width_cm : ℚ := 0
  has_contrasting_belt : Bool := false
  has_tonal_belt : Bool := false
  belt_width_cm : ℚ := 0
  is_structured : Bool := false
  has_lining : Bool := false
  title : Option String := none
  fit_category : Option String := none
  top_hem_length : Option String := none
  top_hem_behavior : Option TopHemBehavior := none
  rise : Option String := none
  leg_shape : Option String := none
  leg_opening_width : Option String := none
  jacket_closure : Option String := none
  jacket_length : Option String := none
  shoulder_structure : Option String := none
  skirt_construction : Option String := none
deriving DecidableEq

namespace GarmentProfile

/-- `is_dark` derived property: color lightness < 0.25. -/
def is_dark (g : GarmentProfile) : Bool := g.color_lightness < 0.25

/-- `sheen_index` derived property (surface-finish → sheen score map). -/
def sheen_index (g : GarmentProfile) : ℚ :=
  match g.surface with
  | .deep_matte => 0 | .matte => 0.10 | .subtle_sheen => 0.25
  | .moderate_sheen => 0.50 | .high_shine => 0.75
  | .maximum_shine => 1 | .crushed => 0.35

/-- `drape_coefficient` derived property: 1-10 drape scale × 10. -/
def drape_coefficient (g : GarmentProfile) : ℚ := g.drape * 10

/-- `cling_risk` derived property (from `engine/schemas.py` lines 494–507):
stretch/20, GSM factor, friction factor averaged and capped at 1. -/
def cling_risk (g : GarmentProfile) : ℚ :=
  let mult : ℚ :=
    match g.construction with
    | .woven => 1.6 | .knit => 4 | .knit_rib => 5.5
    | .knit_double => 3.5 | .knit_jersey => 4
  let stretch := g.elastane_pct * mult
  let gsm_factor := max 0 (1 - g.gsm_estimated / 300)
  let friction_factor := max 0 (1 - g.surface_friction)
  min 1 ((stretch / 20 + gsm_factor + friction_factor) / 3)

end GarmentProfile

-- ================================================================
-- RULES & DATA (engine/rules_data.py)
-- ================================================================

/-- `GOLDEN_RATIO` constant. -/
def golden_ratio_v : ℚ := 0.618

/-- `ELASTANE_MULTIPLIERS` keyed by construction `.value` string, with the
Python `.get(key, 2.0)` default (every enum value is present, so the
default is unreachable). -/
def elastaneMultiplier (key : String) : ℚ :=
  if key = "woven" then 1.6
  else if key = "knit" then 4
  else if key = "knit_rib" then 5.5
  else if key = "knit_double" then 3.5
  else if key = "knit_jersey" then 4
  else 2

/-- `FIBER_GSM_MULTIPLIERS` with the Python `.get(fiber, 1.0)` default. -/
def fiberGsmMultiplier (fiber : String) : ℚ :=
  if fiber = "cotton" then 1.15
  else if fiber = "polyester" then 1
  else if fiber = "silk" then 0.85
  else if fiber = "wool" then 1.10
  else if fiber = "rayon" then 0.90
  else if fiber = "linen" then 1.25
  else if fiber = "nylon" then 0.95
  else if fiber = "tencel" then 0.92
  else if fiber = "modal" then 0.90
  else if fiber = "viscose" then 0.90
  else 1

/-- `SHEEN_MAP` keyed by surface `.value` string, default 0.10. -/
def sheenMap (key : String) : ℚ :=
  if key = "deep_matte" then 0
  else if key = "matte" then 0.10
  else if key = "subtle_sheen" then 0.25
  else if key = "moderate_sheen" then 0.50
  else if key = "high_shine" then 0.75
  else if key = "maximum_shine" then 1
  else if key = "crushed" then 0.35
  else 0.10

/-- `WAIST_POSITION_MULTIPLIERS`: `none` both for `"no_waist"` (whose Python
value is `None`) and for unknown keys (Python `.get` returns `None`). -/
def waistPositionMultiplier (position : String) : Option ℚ :=
  if position = "empire" then some 0.35
  else if position = "high" then some 0.65
  else if position = "natural" then some 1
  else if position = "drop" then some 1.15
  else none

/-- `HEM_TYPE_MODIFIERS` with the Python `.get(hem_type, 0.0)` default. -/
def hemTypeModifier (hem : String) : ℚ :=
  if hem = "clean_hem" then 0
  else if hem = "elastic" then 0.15
  else if hem = "soft_edge" then -0.10
  else if hem = "flutter" then -0.20
  else if hem = "rolled" then 0.10
  else 0

/-- `SHOULDER_WIDTH_MODIFIERS` with the Python `.get(key, 0.0)` default. -/
def shoulderWidthModifier (key : String) : ℚ :=
  if key = "set_in" then 0
  else if key = "raglan" then -0.5
  else if key = "dropped" then -0.75
  else if key = "puff" then 1.5
  else if key = "structured" then 0.5
  else if key = "cap" then 0.25
  else if key = "dolman" then -0.5
  else if key = "off_shoulder" then 0
  else 0

/-- `get_bust_dividing_threshold`: first `bd_max` (keys in ascending order
4,5,6,7,8,9) with `bust_differential ≤ bd_max`; else 3.5 (F+ cup). -/
def get_bust_dividing_threshold (bd : ℚ) : ℚ :=
  if bd ≤ 4 then 7
  else if bd ≤ 5 then 6
  else if bd ≤ 6 then 5
  else if bd ≤ 7 then 4.5
  else if bd ≤ 8 then 4
  else if bd ≤ 9 then 3.5
  else 3.5

/-- `PRINCIPLE_CONFIDENCE` table from `engine/rules_data.py`. -/
def principleConfidenceTable : List (String × ℚ) :=
  [ ("v_neck_dividing_threshold", 0.85),
    ("boat_neck_inverted_triangle", 0.92),
    ("puff_inverted_triangle", 0.92),
    ("three_quarter_arm_slimming", 0.85),
    ("cap_sleeve_danger_zone", 0.80),
    ("hemline_zone_collision_petite", 0.82),
    ("hemline_sleeve_anatomical", 0.90),
    ("dark_color_slimming", 0.70),
    ("wrap_waist_apple", 0.72),
    ("turtleneck_column", 0.68),
    ("waist_placement_golden_ratio", 0.75),
    ("empire_tent_thresholds", 0.65),
    ("skin_tone_contrast", 0.60),
    ("stripe_effect_ashida", 0.55),
    ("pattern_scale_effect", 0.40),
    ("fit_flare_pear_origin", 0.50),
    ("cowl_bust_volume", 0.50),
    ("contour_smoothness", 0.45) ]

/-- The confidence lookup key derived from a scorer name in
`engine/kridha_engine.py` line 1233: `name.lower().replace(" ", "_")
.replace("/", "_")` (lower-casing commutes with the replacements, so the
three passes collapse into one character map). -/
def confidenceKey (name : String) : String :=
  strMap (fun c => if c = ' ' ∨ c = '/' then '_' else c.toLower) name

/-- `PRINCIPLE_CONFIDENCE.get(key, 0.70)`. -/
def principleConfidence (name : String) : ℚ :=
  ((principleConfidenceTable.lookup (confidenceKey name)).getD 0.70)

/-- `FABRIC_LOOKUP` from `engine/rules_data.py`, reduced to the only field
the engine ever reads from it: `typical_stretch`.  The presence of a name
in this table is what `get_fabric_data` tests. -/
def fabricLookup : List (String × ℚ) :=
  [ ("cotton_poplin", 0), ("cotton_jersey", 15), ("silk_charmeuse", 0),
    ("silk_chiffon", 0), ("wool_flannel", 0), ("wool_crepe", 2),
    ("ponte", 20), ("denim", 0), ("stretch_denim", 8), ("satin", 0),
    ("linen", 0), ("rayon_challis", 0), ("polyester_crepe", 0),
    ("modal_jersey", 20), ("tencel_twill", 0), ("velvet", 0),
    ("crushed_velvet", 5), ("neoprene", 15), ("organza", 0), ("tulle", 5),
    ("rib_knit", 30), ("french_terry", 10), ("scuba", 12), ("leather", 0),
    ("faux_leather", 5), ("viscose_twill", 0), ("cotton_sateen", 0),
    ("silk_crepe_de_chine", 0), ("wool_gabardine", 0), ("chambray", 0),
    ("tweed", 0), ("sequin_mesh", 10), ("spandex_blend", 40),
    ("poplin_stretch", 5), ("chiffon_poly", 0), ("double_crepe", 2),
    ("power_mesh", 50), ("bengaline", 8), ("jacquard", 0), ("brocade", 0),
    ("interlock_knit", 18), ("bamboo_jersey", 15), ("wool_jersey", 12),
    ("terry_cloth", 0), ("crepe_back_satin", 0), ("lyocell_twill", 0),
    ("cupro", 0), ("taffeta", 0), ("mesh", 20), ("corduroy", 0),
    ("stretch_crepe", 5), ("scuba_knit", 15), ("performance_knit", 25),
    ("double_georgette", 0), ("stretch_poplin", 5) ]

/-- `get_fabric_data`: look up a fabric by name (returning its
`typical_stretch`). -/
def get_fabric_data (name : String) : Option ℚ := fabricLookup.lookup name

-- ================================================================
-- FABRIC GATE (engine/fabric_gate.py)
-- ================================================================

/-- `ResolvedFabric` from `engine/fabric_gate.py`. -/
structure ResolvedFabric where
  total_stretch_pct : ℚ := 0
  effective_gsm : ℚ := 150
  sheen_score : ℚ := 0.10
  drape_coefficient : ℚ := 50
  cling_risk_base : ℚ := 0.3
  is_structured : Bool := false
  photo_reality_discount : ℚ := 0
  surface_friction : ℚ := 0.5
deriving DecidableEq

/-- `resolve_fabric_properties` from `engine/fabric_gate.py` lines 44–90. -/
def resolve_fabric_properties (g : GarmentProfile) : ResolvedFabric :=
  let fabric_data := match g.fabric_name with
    | some name => get_fabric_data name
    | none => none
  let elastane_mult := elastaneMultiplier (constructionStr g.construction)
  let total_stretch₀ := g.elastane_pct * elastane_mult
  let total_stretch :=
    match fabric_data with
    | some typical_stretch =>
      if g.elastane_pct = 0 ∧ typical_stretch > 0 then typical_stretch
      else total_stretch₀
    | none => total_stretch₀
  let fiber_mult := fiberGsmMultiplier g.primary_fiber
  let effective_gsm := g.gsm_estimated * fiber_mult
  let sheen := sheenMap (surfaceStr g.surface)
  let drape_coeff := g.drape * 10
  let gsm_factor := max 0 (1 - effective_gsm / 300)
  let friction_factor := max 0 (1 - g.surface_friction)
  let cling_base := min 1 ((total_stretch / 20 + gsm_factor + friction_factor) / 3)
  { total_stretch_pct := total_stretch,
    effective_gsm := effective_gsm,
    sheen_score := sheen,
    drape_coefficient := drape_coeff,
    cling_risk_base := cling_base,
    is_structured := g.is_structured || g.has_lining,
    photo_reality_discount := 0,
    surface_friction := g.surface_friction }

/-- `ExceptionTriggered` from `engine/schemas.py`; the free-text `reason`
is abstracted away (nothing downstream reads it). -/
structure ExceptionTriggered where
  exception_id : String
  rule_overridden : String
  confidence : ℚ := 0.70
deriving DecidableEq

/-- `run_fabric_gates` from `engine/fabric_gate.py` lines 203–294:
six independent boolean gate rules. -/
def run_fabric_gates (g : GarmentProfile) (b : BodyProfile)
    (resolved : ResolvedFabric) : List ExceptionTriggered :=
  (if g.is_dark ∧ resolved.sheen_score > 0.50 then
    [⟨"GATE_DARK_SHINY", "dark_slimming", 0.80⟩] else []) ++
  (if g.silhouette = Silhouette.a_line ∧ resolved.drape_coefficient ≥ 65 then
    [⟨"GATE_ALINE_SHELF", "aline_balance", 0.82⟩] else []) ++
  (if g.neckline = NecklineType.wrap ∧ b.bust_differential ≥ 6 ∧
      resolved.surface_friction < 0.3 then
    [⟨"GATE_WRAP_GAPPING", "wrap_neckline", 0.75⟩] else []) ++
  (if resolved.is_structured then
    [⟨"GATE_STRUCTURED", "negative_penalties", 0.85⟩] else []) ++
  (if resolved.drape_coefficient > 60 ∧ b.belly_zone > 0.3 ∧
      g.silhouette ≠ Silhouette.fitted ∧ g.silhouette ≠ Silhouette.semi_fitted then
    [⟨"GATE_FLUID_APPLE_BELLY", "tent_concealment", 0.72⟩] else []) ++
  (if resolved.sheen_score < 0.30 ∧ resolved.cling_risk_base > 0.6 ∧
      (b.is_plus_size ∨ b.hip_zone > 0.5 ∨ b.belly_zone > 0.5) then
    [⟨"GATE_CLING_TRAP", "matte_zone", 0.78⟩] else [])

/-- `get_structured_penalty_reduction`: 0.30 when `GATE_STRUCTURED` fired,
else 1.0. -/
def get_structured_penalty_reduction (exceptions : List ExceptionTriggered) : ℚ :=
  if exceptions.any (fun ex => ex.exception_id = "GATE_STRUCTURED") then 0.30 else 1

-- ================================================================
-- BODY-GARMENT TRANSLATION (engine/body_garment_translator.py)
-- ================================================================

/-- `HemlineResult` from `engine/body_garment_translator.py`. -/
structure HemlineResult where
  hem_from_floor : ℚ
  hem_zone : String
  danger_zones : List (ℚ × ℚ)
  safe_zone : Option (ℚ × ℚ)
  safe_zone_size : ℚ
  fabric_rise : ℚ
  proportion_cut_ratio_v : ℚ
  narrowest_point_bonus : ℚ
deriving DecidableEq

/-- `_hem_label_to_height`: hem label → height from floor, defaulting to the
knee height for unknown labels. -/
def hemLabelToHeight (label : String) (b : BodyProfile) : ℚ :=
  if label = "mini" then b.h_knee + 6
  else if label = "above_knee" then b.h_knee + 3
  else if label = "knee" then b.h_knee
  else if label = "below_knee" then b.h_knee - 3
  else if label = "midi" then b.h_calf_max
  else if label = "below_calf" then b.h_calf_min
  else if label = "ankle" then b.h_ankle + 2
  else if label = "floor" then 1
  else b.h_knee

/-- `fabric_drape_adjustment`: inches of hem ride-up from fabric/body
interaction. -/
def fabric_drape_adjustment (silhouette : Silhouette) (fabric_weight : String)
    (hip_circ stomach_projection : ℚ) : ℚ :=
  let rise₀ : ℚ :=
    (if silhouette = .a_line ∨ silhouette = .fit_and_flare then
      (if hip_circ > 40 then 1 else 0) + (if stomach_projection > 2 then 0.5 else 0)
    else 0) +
    (if silhouette = .fitted then 0.5 else 0)
  if fabric_weight = "light" then rise₀ * 1.3
  else if fabric_weight = "heavy" then rise₀ * 0.7
  else rise₀

/-- `translate_hemline` from `engine/body_garment_translator.py`
lines 91–180: hem position, danger zones, safe zone, zone classification. -/
def translate_hemline (g : GarmentProfile) (b : BodyProfile) : HemlineResult :=
  let hem₀ : ℚ :=
    match g.garment_length_inches with
    | some len => b.height - len * (b.height / 66)
    | none => hemLabelToHeight g.hem_position b
  let fabric_weight : String :=
    if g.gsm_estimated < 120 then "light"
    else if g.gsm_estimated > 280 then "heavy" else "medium"
  let rise := fabric_drape_adjustment g.silhouette fabric_weight b.hip b.belly_projection
  let hem_from_floor := hem₀ + rise
  let knee_center := b.h_knee
  let knee_danger : ℚ × ℚ := (knee_center - 1, knee_center + 1.5)
  let calf_widest := b.h_calf_max
  let calf_danger_radius := 1 + (b.calf_prominence - 1) * 3
  let calf_danger : ℚ × ℚ := (calf_widest - calf_danger_radius, calf_widest + calf_danger_radius)
  let thigh_widest_h := b.h_knee + 6
  let thigh_danger : ℚ × ℚ := (thigh_widest_h - 1, thigh_widest_h + 1)
  let safe_zone_size := knee_danger.1 - calf_danger.2
  let safe_zone : Option (ℚ × ℚ) :=
    if safe_zone_size > 0 then some (calf_danger.2, knee_danger.1) else none
  let hem_zone : String :=
    if hem_from_floor > knee_center + 2.5 then "above_knee"
    else if hem_from_floor > knee_danger.2 then "above_knee_near"
    else if hem_from_floor ≥ knee_danger.1 then "knee_danger"
    else if safe_zone_size > 0 ∧ hem_from_floor > calf_danger.2 then "safe_zone"
    else if safe_zone_size ≤ 0 ∧ hem_from_floor > calf_danger.2 then "collapsed_zone"
    else if hem_from_floor ≥ calf_danger.1 then "calf_danger"
    else if hem_from_floor > b.h_ankle + 2 then "below_calf"
    else if hem_from_floor > b.h_ankle - 1 then "ankle"
    else "floor"
  let cut_ratio_v := if b.height > 0 then hem_from_floor / b.height else 0.3
  let narrowest_bonus : ℚ :=
    max (if |hem_from_floor - (b.h_ankle + 2)| ≤ 1.5 then 2 else 0)
        (if |hem_from_floor - b.h_calf_min| ≤ 1.5 then 1 else 0)
  { hem_from_floor := hem_from_floor,
    hem_zone := hem_zone,
    danger_zones := [thigh_danger, knee_danger, calf_danger],
    safe_zone := safe_zone,
    safe_zone_size := safe_zone_size,
    fabric_rise := rise,
    proportion_cut_ratio_v := cut_ratio_v,
    narrowest_point_bonus := narrowest_bonus }

/-- `SleeveResult` from `engine/body_garment_translator.py`. -/
structure SleeveResult where
  endpoint_position : ℚ
  perceived_width : ℚ
  actual_width : ℚ
  delta_vs_actual : ℚ
  arm_prominence_severity : ℚ
  arm_prominence_radius : ℚ
  score_from_delta : ℚ
  shoulder_width_effect : ℚ
deriving DecidableEq

/-- `_interpolate_arm_circ`: piecewise linear interpolation of arm
circumference at a given distance from the shoulder, over six anatomical
landmarks.  The Python scans the landmark list in order and returns the
first bracketing segment's interpolation; the unrolled conditionals below
reproduce that scan. -/
def interpolateArmCirc (b : BodyProfile) (position : ℚ) : ℚ :=
  let p0 : ℚ := 0
  let c0 := b.shoulder_width / 2 * pi_q / 2
  let p1 := b.c_upper_arm_max_position
  let c1 := b.c_upper_arm_max
  let p2 := b.arm_length * 0.52
  let c2 := b.c_elbow
  let p3 := b.arm_length * 0.65
  let c3 := b.c_forearm_max
  let p4 := b.c_forearm_min_position
  let c4 := b.c_forearm_min
  let p5 := b.arm_length
  let c5 := b.c_wrist
  let seg : ℚ → ℚ → ℚ → ℚ → ℚ :=
    fun pa ca pb cb => if pb = pa then ca else ca + (position - pa) / (pb - pa) * (cb - ca)
  if position ≤ p0 then c0
  else if position ≥ p5 then c5
  else if p0 ≤ position ∧ position ≤ p1 then seg p0 c0 p1 c1
  else if p1 ≤ position ∧ position ≤ p2 then seg p1 c1 p2 c2
  else if p2 ≤ position ∧ position ≤ p3 then seg p2 c2 p3 c3
  else if p3 ≤ position ∧ position ≤ p4 then seg p3 c3 p4 c4
  else if p4 ≤ position ∧ position ≤ p5 then seg p4 c4 p5 c5
  else b.c_upper_arm_max

/-- `_arm_prominence_severity`: (severity, danger radius) from the combined
prominence ratio, via the 7-bucket table. -/
def armProminenceSeverity (b : BodyProfile) : ℚ × ℚ :=
  let combined := b.arm_prominence_combined
  if combined < 1.35 then (0.3, 0.5)
  else if combined < 1.50 then (0.5, 0.75)
  else if combined < 1.65 then (0.75, 1)
  else if combined < 1.80 then (1, 1.5)
  else if combined < 2.00 then (1.3, 2)
  else if combined < 2.20 then (1.6, 2.5)
  else (2, 3)

/-- `_sleeve_type_to_position`: sleeve type → (endpoint, ease, hem type). -/
def sleeveTypeToPosition (t : SleeveType) (b : BodyProfile) : ℚ × ℚ × String :=
  match t with
  | .sleeveless => (0, 0, "clean_hem")
  | .cap => (2.5, -0.5, "clean_hem")
  | .short => (6, 1, "clean_hem")
  | .three_quarter => (17, 0.5, "clean_hem")
  | .long => (b.arm_length, 0, "clean_hem")
  | .raglan => (b.arm_length, 1, "clean_hem")
  | .dolman => (b.arm_length, 12, "clean_hem")
  | .puff => (4, 6, "elastic")
  | .flutter => (3, 3, "flutter")
  | .bell => (b.arm_length * 0.7, 8, "clean_hem")
  | .set_in => (b.arm_length, 1, "clean_hem")

/-- The `.value` string of a `SleeveType` (used for the shoulder-width
modifier lookup). -/
def sleeveTypeStr : SleeveType → String
  | .sleeveless => "sleeveless" | .cap => "cap" | .short => "short"
  | .three_quarter => "three_quarter" | .long => "long" | .raglan => "raglan"
  | .dolman => "dolman" | .puff => "puff" | .flutter => "flutter"
  | .bell => "bell" | .set_in => "set_in"

/-- `translate_sleeve` from `engine/body_garment_translator.py`
lines 271–362. -/
def translate_sleeve (g : GarmentProfile) (b : BodyProfile) : SleeveResult :=
  let (endpoint, ease, hem_type) :=
    match g.sleeve_length_inches with
    | some len => (len, g.sleeve_ease_inches, "clean_hem")
    | none => sleeveTypeToPosition g.sleeve_type b
  let actual_circ := interpolateArmCirc b endpoint
  let actual_width := actual_circ / pi_q
  let frame_width₀ :=
    if ease ≥ 0 then actual_width + ease / pi_q
    else if ease > -1 then actual_width + |ease| * 0.3
    else actual_width + |ease| * 0.5
  let frame_width := frame_width₀ + hemTypeModifier hem_type
  let taper_impression :=
    if endpoint < b.arm_length then
      let mid_visible := (endpoint + b.arm_length) / 2
      let visible_circ := interpolateArmCirc b mid_visible
      (visible_circ / pi_q - frame_width) * 0.4
    else 0
  let perceived_width := frame_width + taper_impression
  let delta :=
    if endpoint ≤ b.c_upper_arm_max_position + 1.5 then
      let widest_arm_width := b.c_upper_arm_max / pi_q
      max (perceived_width - actual_width) (frame_width - widest_arm_width + 0.20)
    else perceived_width - actual_width
  let (severity, radius) := armProminenceSeverity b
  let score₀ : ℚ :=
    if delta > 0.30 then -4
    else if delta > 0.15 then -2
    else if delta > 0 then -1
    else if delta > -0.30 then 1
    else if delta > -0.60 then 3
    else 5
  let score := if score₀ < 0 then score₀ * severity else score₀ * (1 + (severity - 1) * 0.5)
  { endpoint_position := endpoint,
    perceived_width := perceived_width,
    actual_width := actual_width,
    delta_vs_actual := delta,
    arm_prominence_severity := severity,
    arm_prominence_radius := radius,
    score_from_delta := score,
    shoulder_width_effect := shoulderWidthModifier (sleeveTypeStr g.sleeve_type) }

/-- `WaistlineResult` from `engine/body_garment_translator.py`. -/
structure WaistlineResult where
  visual_waist_height : ℚ
  visual_leg_ratio_v : ℚ
  proportion_improvement : ℚ
  proportion_score : ℚ
  waist_position_label : String
deriving DecidableEq

/-- `translate_waistline` from `engine/body_garment_translator.py`
lines 378–413: visual waist position and golden-ratio improvement. -/
def translate_waistline (g : GarmentProfile) (b : BodyProfile) : WaistlineResult :=
  let visual_waist_from_shoulder :=
    match waistPositionMultiplier g.waist_position with
    | none => b.torso_length
    | some m => b.torso_length * m
  let shift := b.torso_length - visual_waist_from_shoulder
  let perceptual_shift := shift * 0.25
  let visual_leg_length := b.leg_length_visual + perceptual_shift
  let visual_waist_height := b.height - b.torso_length + perceptual_shift
  let vlr := if b.height > 0 then visual_leg_length / b.height else 0.618
  let deviation_before := |b.leg_ratio_v - golden_ratio_v|
  let deviation_after := |vlr - golden_ratio_v|
  let improvement := deviation_before - deviation_after
  { visual_waist_height := visual_waist_height,
    visual_leg_ratio_v := vlr,
    proportion_improvement := improvement,
    proportion_score := clamp (improvement * 8) (-0.80) 0.80,
    waist_position_label := g.waist_position }

/-- `BodyAdjustedGarment` from `engine/schemas.py`. -/
structure BodyAdjustedGarment where
  hem_from_floor : ℚ := 0
  hem_zone : String := ""
  hemline_danger_zones : List (ℚ × ℚ) := []
  hemline_safe_zone : Option (ℚ × ℚ) := none
  fabric_rise_adjustment : ℚ := 0
  sleeve_endpoint_position : ℚ := 0
  perceived_arm_width : ℚ := 0
  arm_width_delta : ℚ := 0
  arm_prominence_severity : ℚ := 0.5
  visual_waist_height : ℚ := 0
  visual_leg_ratio_v : ℚ := 0.618
  proportion_improvement : ℚ := 0
  total_stretch_pct : ℚ := 0
  effective_gsm : ℚ := 150
  sheen_score : ℚ := 0.10
  photo_reality_discount : ℚ := 0
deriving DecidableEq

/-- Categories with meaningful hemline/leg interaction
(`translate_garment_to_body`). -/
def hemCategories : List GarmentCategory :=
  [.dress, .skirt, .jumpsuit, .romper, .coat]

/-- Categories that have sleeves (`translate_garment_to_body`). -/
def sleeveCategories : List GarmentCategory :=
  [.dress, .top, .jumpsuit, .romper, .jacket, .coat, .sweatshirt,
   .cardigan, .bodysuit, .loungewear, .activewear, .saree,
   .salwar_kameez, .lehenga]

/-- Categories that define a waistline (`translate_garment_to_body`). -/
def waistCategories : List GarmentCategory :=
  [.dress, .jumpsuit, .romper, .coat, .bottom_pants, .bottom_shorts, .skirt]

/-- `translate_garment_to_body` from `engine/body_garment_translator.py`
lines 467–558: run the category-appropriate sub-translations. -/
def translate_garment_to_body (g : GarmentProfile) (b : BodyProfile) :
    BodyAdjustedGarment :=
  let cat := g.category
  let hemPart : ℚ × String × List (ℚ × ℚ) × Option (ℚ × ℚ) × ℚ :=
    if cat ∈ hemCategories then
      let hem := translate_hemline g b
      (hem.hem_from_floor, hem.hem_zone, hem.danger_zones, hem.safe_zone, hem.fabric_rise)
    else (0, "", [], none, 0)
  let sleevePart : ℚ × ℚ × ℚ × ℚ :=
    if cat ∈ sleeveCategories then
      let s := translate_sleeve g b
      (s.endpoint_position, s.perceived_width, s.delta_vs_actual, s.arm_prominence_severity)
    else (0, 0, 0, 0.5)
  let waistPart : ℚ × ℚ × ℚ :=
    if cat ∈ waistCategories then
      let w := translate_waistline g b
      (w.visual_waist_height, w.visual_leg_ratio_v, w.proportion_improvement)
    else (0, golden_ratio_v, 0)
  let resolved := resolve_fabric_properties g
  { hem_from_floor := hemPart.1,
    hem_zone := hemPart.2.1,
    hemline_danger_zones := hemPart.2.2.1,
    hemline_safe_zone := hemPart.2.2.2.1,
    fabric_rise_adjustment := hemPart.2.2.2.2,
    sleeve_endpoint_position := sleevePart.1,
    perceived_arm_width := sleevePart.2.1,
    arm_width_delta := sleevePart.2.2.1,
    arm_prominence_severity := sleevePart.2.2.2,
    visual_waist_height := waistPart.1,
    visual_leg_ratio_v := waistPart.2.1,
    proportion_improvement := waistPart.2.2,
    total_stretch_pct := resolved.total_stretch_pct,
    effective_gsm := resolved.effective_gsm,
    sheen_score := resolved.sheen_score,
    photo_reality_discount := resolved.photo_reality_discount }

-- ================================================================
-- GARMENT TYPE SYSTEM (engine/garment_types.py)
-- ================================================================

/-- `_SCORERS_TO_SKIP`: generic scorers to skip per category (empty set for
categories not listed). -/
def scorersToSkip (cat : GarmentCategory) : List String :=
  match cat with
  | .dress => []
  | .top => ["Hemline"]
  | .sweatshirt => ["Hemline"]
  | .bodysuit => ["Hemline"]
  | .bottom_pants =>
    ["V-Neck Elongation", "Neckline Compound", "Sleeve", "Rise Elongation", "Hemline"]
  | .bottom_shorts =>
    ["V-Neck Elongation", "Neckline Compound", "Sleeve", "Rise Elongation", "Hemline"]
  | .skirt => ["V-Neck Elongation", "Neckline Compound", "Sleeve", "Rise Elongation"]
  | .jumpsuit => []
  | .romper => []
  | .jacket => ["Hemline"]
  | .coat => []
  | .cardigan => ["Hemline"]
  | .vest => ["Hemline", "Sleeve"]
  | _ => []

/-- `_EXTRA_SCORERS`: type-specific scorers to add per category. -/
def extraScorerNames (cat : GarmentCategory) : List String :=
  match cat with
  | .top => ["Top Hemline"]
  | .sweatshirt => ["Top Hemline"]
  | .bodysuit => ["Top Hemline"]
  | .cardigan => ["Top Hemline"]
  | .bottom_pants => ["Pant Rise", "Leg Shape"]
  | .bottom_shorts => ["Pant Rise", "Leg Shape"]
  | .jacket => ["Jacket Scoring"]
  | .coat => ["Jacket Scoring"]
  | _ => []

/-- `TYPE_SCORER_ZONE_MAPPING`. -/
def typeScorerZoneMapping (name : String) : List String :=
  if name = "Top Hemline" then ["hip", "torso"]
  else if name = "Pant Rise" then ["waist"]
  else if name = "Leg Shape" then ["hip", "thigh"]
  else if name = "Jacket Scoring" then ["shoulder", "waist", "hip", "torso"]
  else []

/-- `TYPE_SCORER_WEIGHTS` with the Python `.get(name, 0.10)` default. -/
def typeScorerWeight (name : String) : ℚ :=
  if name = "Top Hemline" then 0.15
  else if name = "Pant Rise" then 0.18
  else if name = "Leg Shape" then 0.15
  else if name = "Jacket Scoring" then 0.18
  else 0.10

/-- `_TITLE_KEYWORDS`, flattened to (category, keyword) pairs in the Python
dict's insertion order. -/
def titleKeywords : List (GarmentCategory × String) :=
  [GarmentCategory.dress].flatMap (fun c =>
    ["maxi dress", "mini dress", "midi dress", "shift dress",
     "wrap dress", "dress", "gown", "frock"].map (fun k => (c, k))) ++
  [GarmentCategory.top].flatMap (fun c =>
    ["crop top", "halter top", "t-shirt", "blouse", "shirt", "tee",
     "cami", "camisole", "tank", "tunic", "henley", "polo", "top",
     "bustier", "corset top", "bralette"].map (fun k => (c, k))) ++
  [GarmentCategory.bottom_pants].flatMap (fun c =>
    ["wide-leg", "straight-leg", "slim pant", "pants", "trouser",
     "jeans", "denim", "chino", "legging", "jogger", "cargo", "palazzo",
     "culottes", "sweatpant"].map (fun k => (c, k))) ++
  [GarmentCategory.bottom_shorts].flatMap (fun c =>
    ["shorts", "bermuda", "hot pants"].map (fun k => (c, k))) ++
  [GarmentCategory.skirt].flatMap (fun c =>
    ["denim skirt", "mini skirt", "midi skirt", "maxi skirt", "pencil skirt",
     "a-line skirt", "pleated skirt", "skirt", "skort"].map (fun k => (c, k))) ++
  [GarmentCategory.jumpsuit].flatMap (fun c => ["jumpsuit"].map (fun k => (c, k))) ++
  [GarmentCategory.romper].flatMap (fun c =>
    ["romper", "playsuit"].map (fun k => (c, k))) ++
  [GarmentCategory.jacket].flatMap (fun c =>
    ["denim jacket", "leather jacket", "cropped jacket",
     "jacket", "blazer", "bomber", "moto", "shacket"].map (fun k => (c, k))) ++
  [GarmentCategory.coat].flatMap (fun c =>
    ["overcoat", "trench", "parka", "peacoat", "puffer",
     "down jacket", "rain jacket", "coat",
     "anorak", "cape", "poncho"].map (fun k => (c, k))) ++
  [GarmentCategory.sweatshirt].flatMap (fun c =>
    ["sweatshirt", "hoodie", "pullover", "fleece"].map (fun k => (c, k))) ++
  [GarmentCategory.cardigan].flatMap (fun c =>
    ["cardigan", "kimono", "duster"].map (fun k => (c, k))) ++
  [GarmentCategory.vest].flatMap (fun c =>
    ["vest", "gilet", "waistcoat"].map (fun k => (c, k))) ++
  [GarmentCategory.bodysuit].flatMap (fun c => ["bodysuit"].map (fun k => (c, k))) ++
  [GarmentCategory.activewear].flatMap (fun c =>
    ["sports bra", "yoga pants", "workout top", "athletic"].map (fun k => (c, k))) ++
  [GarmentCategory.loungewear].flatMap (fun c =>
    ["pajama", "robe", "loungewear", "nightgown", "sleepwear"].map (fun k => (c, k))) ++
  [GarmentCategory.saree].flatMap (fun c =>
    ["saree", "sari"].map (fun k => (c, k))) ++
  [GarmentCategory.salwar_kameez].flatMap (fun c =>
    ["salwar", "kameez", "kurta", "kurti", "anarkali", "churidar"].map (fun k => (c, k))) ++
  [GarmentCategory.lehenga].flatMap (fun c =>
    ["lehenga", "lehnga", "chaniya choli"].map (fun k => (c, k)))

/-- Best title keyword match: the Python collects every `(len(keyword),
keyword, category)` whose keyword occurs in the lower-cased title, sorts
descending and takes the head — i.e. the maximum under the lexicographic
order on `(length, keyword)`.  No two table entries share a keyword, so
further tie-breaking never occurs. -/
def bestTitleMatch (title : String) : Option GarmentCategory :=
  titleKeywords.foldl
    (fun best entry =>
      let (c, k) := entry
      if k.data <:+: title.data then
        match best with
        | none => some (k, c)
        | some (bk, bc) =>
          if k.length > bk.length ∨ (k.length = bk.length ∧ (compare bk k).isLT) then some (k, c)
          else some (bk, bc)
      else best)
    none
  |>.map Prod.snd

/-- The title-match stage of `classify_garment`: lower-case the title
(`""` when absent) and look for the best keyword match when non-empty. -/
def titleMatchOf (g : GarmentProfile) : Option GarmentCategory :=
  let title := strMap Char.toLower (g.title.getD "")
  if title ≠ "" then bestTitleMatch title else none

/-- `classify_garment` from `engine/garment_types.py` lines 157–185:
title keyword match, then attribute fallback, then the profile's own
category. -/
def classify_garment (g : GarmentProfile) : GarmentCategory :=
  match titleMatchOf g with
  | some c => c
  | none =>
    if g.rise ≠ none ∧ g.leg_shape ≠ none then .bottom_pants
    else if g.skirt_construction ≠ none then .skirt
    else if g.jacket_closure ≠ none then .jacket
    else g.category

-- ================================================================
-- TYPE-SPECIFIC SCORERS (engine/garment_types.py)
-- ================================================================

/-- Python `x or default` on an optional string: `None` and `""` both fall
back to the default. -/
def orStr (x : Option String) (default : String) : String :=
  match x with
  | some s => if s = "" then default else s
  | none => default

/-- `score_top_hemline` from `engine/garment_types.py` lines 192–320.
The second component is `true` exactly when the Python reasoning string
contains "N/A" (only the unrecognized-hem fallback). -/
def score_top_hemline (g : GarmentProfile) (b : BodyProfile) : ℚ × Bool :=
  let behavior := g.top_hem_behavior
  let hem_pos := orStr g.top_hem_length "at_hip"
  let body_shape := b.body_shape
  if behavior = some TopHemBehavior.tucked then
    (clamp1 (0.15 - (if g.gsm_estimated > 250 then 0.20 else 0)), false)
  else if behavior = some TopHemBehavior.half_tucked then
    let score := 0.20
      + (if body_shape = .pear then 0.10
         else if body_shape = .apple then 0.05 else 0)
      + (if StylingGoal.highlight_waist ∈ b.styling_goals then 0.10 else 0)
      - (if g.gsm_estimated > 250 then 0.15 else 0)
    (clamp1 score, false)
  else if behavior = some TopHemBehavior.bodysuit then
    (clamp1 0.10, false)
  else if behavior = some TopHemBehavior.cropped ∨ hem_pos = "cropped" then
    let score₀ : ℚ :=
      if b.is_petite ∧ b.torso_leg_ratio_v < 0.48 then -0.35
      else if b.is_petite then 0.30
      else 0.15
    let score :=
      if body_shape = .apple ∧ StylingGoal.hide_midsection ∈ b.styling_goals
      then -0.70 else score₀
    (clamp1 score, false)
  else if hem_pos = "at_waist" then
    (clamp1 (0.20 + (if StylingGoal.highlight_waist ∈ b.styling_goals then 0.15 else 0)),
     false)
  else if hem_pos = "just_below_waist" then (clamp1 0.15, false)
  else if hem_pos = "at_hip" then
    if body_shape = .pear then
      let fit := orStr g.fit_category g.silhouette_label
      let score₀ : ℚ := if fit = "relaxed" ∨ fit = "loose" then -0.30 else -0.45
      let score := score₀ -
        (if StylingGoal.slim_hips ∈ b.styling_goals then 0.10 else 0)
      (clamp1 score, false)
    else if body_shape = .inverted_triangle then (clamp1 0.35, false)
    else if body_shape = .apple then
      let fit := orStr g.fit_category g.silhouette_label
      if fit = "relaxed" ∨ fit = "loose" then (clamp1 0.20, false)
      else (clamp1 (-0.15), false)
    else (clamp1 0, false)
  else if hem_pos = "below_hip" ∨ hem_pos = "tunic_length" then
    let score := (0 : ℚ)
      + (if StylingGoal.slim_hips ∈ b.styling_goals ∨
            StylingGoal.hide_midsection ∈ b.styling_goals then 0.35 else 0)
      + (if StylingGoal.look_taller ∈ b.styling_goals then
           (if hem_pos = "tunic_length" then -0.35 else -0.20) else 0)
      - (if b.is_petite ∧ hem_pos = "tunic_length" then 0.20 else 0)
    (clamp1 score, false)
  else (0, true)

/-- `score_pant_rise` from `engine/garment_types.py` lines 323–397. -/
def score_pant_rise (g : GarmentProfile) (b : BodyProfile) : ℚ × Bool :=
  let rise? : Option String :=
    match g.rise with
    | some r => some r
    | none =>
      match g.rise_cm with
      | some rc => some (if rc > 26 then "high" else if rc > 22 then "mid" else "low")
      | none => none
  match rise? with
  | none => (0, true)
  | some rise =>
    let body_shape := b.body_shape
    if rise = "high" ∨ rise = "ultra_high" then
      let score := 0.25
        + (if StylingGoal.look_taller ∈ b.styling_goals then 0.25 else 0)
        + (if StylingGoal.highlight_waist ∈ b.styling_goals then 0.15 else 0)
        + (if body_shape = .apple ∧ b.whr > 0.85 then
             (if g.waistband_stretch_pct ≥ 8 then -0.10 else -0.25) else 0)
        + (if b.is_petite then 0.10 else 0)
      (clamp1 score, false)
    else if rise = "mid" then (clamp1 0.05, false)
    else if rise = "low" then
      let score := -0.15
        - (if StylingGoal.look_taller ∈ b.styling_goals then 0.25 else 0)
        - (if b.is_petite then 0.15 else 0)
        - (if StylingGoal.hide_midsection ∈ b.styling_goals then 0.15 else 0)
      (clamp1 score, false)
    else (0, true)

/-- `score_leg_shape` from `engine/garment_types.py` lines 400–526. -/
def score_leg_shape (g : GarmentProfile) (b : BodyProfile) : ℚ × Bool :=
  match g.leg_shape with
  | none => (0, true)
  | some leg =>
    let body_shape := b.body_shape
    let thigh_cling_penalty : ℚ :=
      if leg = "skinny" ∨ leg = "slim" then
        let total_stretch :=
          g.elastane_pct * elastaneMultiplier (constructionStr g.construction)
        if total_stretch < 8 ∧ b.c_thigh_max > 24 then -0.10
        else if total_stretch < 8 ∧ b.c_thigh_max > 22 then -0.05
        else 0
      else 0
    if leg = "skinny" ∨ leg = "slim" then
      let score₀ : ℚ :=
        if body_shape = .pear then
          (if StylingGoal.slim_hips ∈ b.styling_goals then -0.35 else -0.10)
          + (if g.rise = some "high" ∨ g.rise = some "ultra_high" then 0.10 else 0)
        else if body_shape = .inverted_triangle then -0.25
        else if body_shape = .rectangle then 0.15
        else if body_shape = .hourglass then 0.15
        else 0
      (clamp1 (score₀ + thigh_cling_penalty), false)
    else if leg = "wide_leg" ∨ leg = "palazzo" then
      let score : ℚ :=
        if b.is_petite then
          if g.rise = some "high" ∨ g.rise = some "ultra_high" then 0.15 else -0.30
        else if body_shape = .pear then
          0.40 + (if g.rise = some "high" ∨ g.rise = some "ultra_high" then 0.10
                  else if g.rise = some "low" then -0.20 else 0)
        else if body_shape = .inverted_triangle then
          0.40 + (if g.rise = some "high" ∨ g.rise = some "ultra_high" then 0.05 else 0)
        else if body_shape = .apple then
          0.25 + (if (g.rise = some "high" ∨ g.rise = some "ultra_high") ∧
                      g.waistband_stretch_pct ≥ 8 then 0.10
                  else if g.rise = some "low" then -0.15 else 0)
        else 0.15
      (clamp1 score, false)
    else if leg = "straight" then (clamp1 0.15, false)
    else if leg = "bootcut" ∨ leg = "flare" then
      let score := (if body_shape = .pear then 0.30 else 0.15)
        + (if StylingGoal.look_taller ∈ b.styling_goals then 0.15 else 0)
      (clamp1 score, false)
    else if leg = "tapered" then
      (clamp1 (if body_shape = .pear then -0.15 else 0.10), false)
    else if leg = "jogger" then
      (clamp1 (if b.is_petite then -0.15 else 0), false)
    else (0, true)

/-- `score_jacket_scoring` from `engine/garment_types.py` lines 529–606. -/
def score_jacket_scoring (g : GarmentProfile) (b : BodyProfile) : ℚ × Bool :=
  let body_shape := b.body_shape
  let structure_v := orStr g.shoulder_structure "natural"
  let s1 : ℚ :=
    if structure_v = "padded" ∨ structure_v = "structured" then
      if body_shape = .pear then 0.50
      else if body_shape = .inverted_triangle then -0.40
      else if body_shape = .rectangle then 0.25
      else 0.10
    else if structure_v = "dropped" ∨ structure_v = "oversized" then
      if body_shape = .inverted_triangle then 0.20
      else if b.is_petite then -0.30
      else 0.05
    else 0
  let length := orStr g.jacket_length "hip"
  let s2 : ℚ :=
    if length = "cropped" then
      0.30 + (if StylingGoal.look_taller ∈ b.styling_goals then 0.15 else 0)
    else if length = "hip" then
      if body_shape = .pear then -0.30
      else if body_shape = .inverted_triangle then 0.20
      else 0
    else if length = "mid_thigh" ∨ length = "knee" ∨ length = "below_knee" ∨
            length = "full_length" then
      (if StylingGoal.look_taller ∈ b.styling_goals then -0.20 else 0)
      + (if StylingGoal.hide_midsection ∈ b.styling_goals ∨
            StylingGoal.slim_hips ∈ b.styling_goals then 0.30 else 0)
    else 0
  let s3 : ℚ :=
    if g.jacket_closure = some "open_front" then 0.20
    else if g.jacket_closure = some "double_breasted" then
      if body_shape = .apple then -0.15
      else if body_shape = .rectangle then 0.10
      else 0
    else 0
  (clamp1 (s1 + s2 + s3), false)

-- ================================================================
-- PRINCIPLE RESULT (engine/schemas.py)
-- ================================================================

/-- `PrincipleResult` from `engine/schemas.py`.  The free-text `reasoning`
string is abstracted to `na`: whether the Python reasoning contains the
substring "n/a" case-insensitively (the only thing the pipeline reads
from it). -/
structure PrincipleResult where
  name : String
  score : ℚ
  na : Bool
  weight : ℚ := 1
  applicable : Bool := true
  confidence : ℚ := 0.70
deriving DecidableEq

-- ================================================================
-- GOAL SCORERS (engine/goal_scorers.py)
-- ================================================================

/-- `GoalVerdict` from `engine/schemas.py`.  `supporting_principles` keeps
only the contributing principle names (the Python embeds formatted scores
in the strings, and iterates Python sets whose order is unspecified; the
weighted sums themselves are order-independent). -/
structure GoalVerdict where
  goal : StylingGoal
  verdict : String
  score : ℚ
  supporting_principles : List String := []
deriving DecidableEq

/-- `GOAL_PRINCIPLE_MAP` from `engine/goal_scorers.py`:
(positive principles, negative principles, per-principle weights). -/
def goalPrincipleMap (goal : StylingGoal) :
    List String × List String × List (String × ℚ) :=
  match goal with
  | .look_taller =>
    (["Monochrome Column", "Rise Elongation", "V-Neck Elongation",
      "Hemline", "Waist Placement", "Pant Rise"],
     ["Color Break", "H-Stripe Thinning", "Top Hemline"],
     [("Monochrome Column", 1.5), ("Rise Elongation", 1.3),
      ("V-Neck Elongation", 1.2), ("Hemline", 1.3), ("Waist Placement", 1.2),
      ("Color Break", 1.3), ("Pant Rise", 1.5), ("Top Hemline", 1.2)])
  | .highlight_waist =>
    (["Color Break", "Bodycon Mapping", "Waist Placement", "Pant Rise",
      "Jacket Scoring"],
     ["Tent Concealment"],
     [("Color Break", 1.5), ("Bodycon Mapping", 1.2), ("Waist Placement", 1.5),
      ("Tent Concealment", 1.3), ("Pant Rise", 1.3), ("Jacket Scoring", 1.2)])
  | .hide_midsection =>
    (["Tent Concealment", "Dark/Black Slimming", "Matte Zone", "Fabric Zone",
      "Top Hemline", "Jacket Scoring"],
     ["Bodycon Mapping", "Color Break", "Pant Rise"],
     [("Tent Concealment", 1.5), ("Dark/Black Slimming", 1.3), ("Matte Zone", 1.2),
      ("Bodycon Mapping", 1.5), ("Color Break", 1.2), ("Top Hemline", 1.3),
      ("Jacket Scoring", 1.2), ("Pant Rise", 1.2)])
  | .slim_hips =>
    (["Dark/Black Slimming", "A-Line Balance", "Matte Zone", "Hemline",
      "Leg Shape"],
     ["H-Stripe Thinning", "Bodycon Mapping", "Top Hemline"],
     [("Dark/Black Slimming", 1.5), ("A-Line Balance", 1.3), ("Matte Zone", 1.2),
      ("Hemline", 1.2), ("H-Stripe Thinning", 1.3), ("Bodycon Mapping", 1.3),
      ("Leg Shape", 1.5), ("Top Hemline", 1.3)])
  | .look_proportional =>
    (["Waist Placement", "Hemline", "Rise Elongation", "Monochrome Column",
      "Pant Rise", "Jacket Scoring"],
     ["Tent Concealment"],
     [("Waist Placement", 1.5), ("Hemline", 1.3), ("Rise Elongation", 1.2),
      ("Tent Concealment", 1.2), ("Pant Rise", 1.3), ("Jacket Scoring", 1.1)])
  | .minimize_arms =>
    (["Sleeve", "Matte Zone", "Jacket Scoring"],
     [],
     [("Sleeve", 1.5), ("Matte Zone", 1.2), ("Jacket Scoring", 1.2)])
  | .slimming =>
    (["Dark/Black Slimming", "Matte Zone", "H-Stripe Thinning", "Color Value"],
     ["Tent Concealment", "Bodycon Mapping"],
     [("Dark/Black Slimming", 1.5), ("Matte Zone", 1.3), ("Tent Concealment", 1.5)])
  | .concealment =>
    (["Tent Concealment", "Matte Zone", "Dark/Black Slimming"],
     ["Bodycon Mapping"],
     [("Tent Concealment", 1.5), ("Matte Zone", 1.3)])
  | .emphasis =>
    (["Bodycon Mapping", "Color Break", "V-Neck Elongation"],
     ["Tent Concealment"],
     [("Bodycon Mapping", 1.5), ("Color Break", 1.3), ("V-Neck Elongation", 1.3)])
  | .balance =>
    (["Waist Placement", "A-Line Balance", "Hemline"], [], [])

/-- `_score_single_goal` from `engine/goal_scorers.py` lines 187–252. -/
def scoreSingleGoal (goal : StylingGoal) (principles : List PrincipleResult) :
    GoalVerdict :=
  let (positive_names, negative_names, weights) := goalPrincipleMap goal
  let lookupName : String → Option PrincipleResult := fun name =>
    (principles.filter (fun p => p.applicable)).find? (fun p => p.name = name)
  let posHits := positive_names.filterMap lookupName
  let negHits := negative_names.filterMap lookupName
  let w : String → ℚ := fun name => (weights.lookup name).getD 1
  let weighted_sum :=
    (posHits.map (fun p => p.score * w p.name)).sum
    - (negHits.map (fun p => p.score * w p.name)).sum
  let total_weight :=
    (posHits.map (fun p => w p.name)).sum + (negHits.map (fun p => w p.name)).sum
  let supporting :=
    (posHits.filter (fun p => p.score > 0.05)).map (fun p => p.name)
    ++ (negHits.filter (fun p => p.score < -0.05)).map (fun p => p.name)
  if total_weight = 0 then
    { goal := goal, verdict := "caution", score := 0, supporting_principles := [] }
  else
    let final_score := weighted_sum / total_weight
    let verdict :=
      if final_score > 0.15 then "pass"
      else if final_score < -0.15 then "fail"
      else "caution"
    { goal := goal, verdict := verdict, score := pyRound 3 final_score,
      supporting_principles := supporting }

/-- `score_goals` from `engine/goal_scorers.py`: one verdict per active
styling goal. -/
def score_goals (principles : List PrincipleResult) (b : BodyProfile) :
    List GoalVerdict :=
  b.styling_goals.map (fun goal => scoreSingleGoal goal principles)

-- ================================================================
-- CONTEXT MODIFIERS (engine/context_modifiers.py)
-- ================================================================

/-- The optional context dict passed to `score_garment`, with the defaults
`apply_context_modifiers` uses for absent keys. -/
structure Context where
  occasion : String := ""
  culture : String := ""
  event_type : String := "general"
  garment_color : String := ""
  age_range : String := ""
  climate : String := ""
deriving DecidableEq

/-- `_COLOR_SYMBOLISM[culture].get(color, {})` then
`.get(event, .get("general", 0.0))`. -/
def colorSymbolism (culture color event : String) : ℚ :=
  let pick : List (String × ℚ) → ℚ := fun rules =>
    ((rules.lookup event).orElse (fun _ => rules.lookup "general")).getD 0
  if culture = "india" then
    if color = "red" then
      pick [("wedding_bride", 0.95), ("wedding_guest", -0.30), ("general", 0)]
    else if color = "white" then
      pick [("celebration", -0.90), ("funeral", 0.50), ("general", 0)]
    else if color = "black" then
      pick [("wedding_ceremony", -0.70), ("sangeet", -0.20), ("general", 0)]
    else if color = "gold" then
      pick [("wedding", 0.80), ("general", 0.20)]
    else 0
  else if culture = "us" then
    if color = "red" then pick [("general", 0)]
    else if color = "white" then
      pick [("wedding_bride", 0.90), ("wedding_guest", -0.50), ("general", 0)]
    else if color = "black" then
      pick [("evening", 0.90), ("funeral", 0.50), ("general", 0)]
    else 0
  else 0

/-- Whether `culture` appears in `_COLOR_SYMBOLISM`. -/
def cultureKnown (culture : String) : Bool := culture = "india" || culture = "us"

/-- `_OCCASION_COVERAGE` restricted to the two fields
`apply_context_modifiers` reads: (min_hem, max_neckline_depth). -/
def occasionCoverage (occasion : String) : Option (String × ℚ) :=
  if occasion = "formal" then some ("knee", 4)
  else if occasion = "business" then some ("above_knee", 5)
  else if occasion = "business_casual" then some ("above_knee", 6)
  else if occasion = "casual" then some ("mini", 8)
  else if occasion = "date_night" then some ("above_knee", 7)
  else if occasion = "wedding_guest" then some ("knee", 5)
  else if occasion = "interview" then some ("knee", 5)
  else if occasion = "athletic" then some ("mini", 6)
  else if occasion = "brunch" then some ("above_knee", 7)
  else if occasion = "evening" then some ("above_knee", 8)
  else none

/-- `_HEM_ORDER` (higher index = shorter hem). -/
def hemOrder : List String :=
  ["floor", "ankle", "below_calf", "midi", "below_knee", "knee", "above_knee", "mini"]

/-- `_hem_is_above`: actual hem strictly shorter than the minimum; a
`ValueError` from an unknown label is caught and yields `false`. -/
def hemIsAbove (actual minimum : String) : Bool :=
  match hemOrder.indexOf? actual, hemOrder.indexOf? minimum with
  | some ai, some mi => ai > mi
  | _, _ => false

/-- `apply_context_modifiers` from `engine/context_modifiers.py`
lines 123–196, returning the adjustments association list.  (The caller
binds this to a local that only feeds the reasoning-chain log.) -/
def apply_context_modifiers (ctx : Context) (principles : List PrincipleResult)
    (g : GarmentProfile) : List (String × ℚ) :=
  let culture := strMap Char.toLower ctx.culture
  let garment_color := strMap Char.toLower ctx.garment_color
  let cultural :=
    if cultureKnown culture ∧ garment_color ≠ "" then
      let v := colorSymbolism culture garment_color ctx.event_type
      if v ≠ 0 then [("cultural_color", v)] else []
    else []
  let occasion := strMap Char.toLower ctx.occasion
  let occ :=
    match occasionCoverage occasion with
    | none => []
    | some (min_hem, max_depth) =>
      (if hemIsAbove g.hem_position min_hem then
        [("occasion_hem_violation", (-0.20 : ℚ))] else []) ++
      (let neckline_depth :=
        match g.neckline_depth with
        | some d => if d = 0 then g.v_depth_cm / 2.54 else d
        | none => g.v_depth_cm / 2.54
       if neckline_depth > max_depth then
        [("occasion_neckline_violation", (-0.15 : ℚ))] else [])
  let climate := strMap Char.toLower ctx.climate
  let clim :=
    if climate = "hot_humid" then
      (if g.gsm_estimated > 250 then [("climate_heavy_fabric", (-0.10 : ℚ))] else []) ++
      (if (g.primary_fiber = "polyester" ∨ g.primary_fiber = "nylon") ∧
          (g.fabric_name = none ∨ g.fabric_name = some "") then
        [("climate_non_breathable", (-0.05 : ℚ))] else [])
    else if climate = "cold" then
      if g.gsm_estimated < 120 then [("climate_light_fabric", (-0.10 : ℚ))] else []
    else []
  let age :=
    if ctx.age_range = "50+" then
      if principles.any (fun p => p.name = "Bodycon Mapping" ∧ p.score > 0.20) then
        [("age_bodycon_comfort", (-0.05 : ℚ))] else []
    else if ctx.age_range = "18-25" then
      if principles.any (fun p => p.name = "Tent Concealment" ∧ p.score < -0.20) then
        [("age_oversized_trend", (0.05 : ℚ))] else []
    else []
  cultural ++ occ ++ clim ++ age

-- ================================================================
-- PRINCIPLE SCORERS P1-P10 (engine/kridha_engine.py lines 72-651)
-- ================================================================
-- Each scorer returns (score, na): `na` is `true` exactly at the Python
-- return sites whose reasoning text contains "N/A".

/-- `_has_goal`: membership in the body's styling goals. -/
def hasGoal (b : BodyProfile) (goal : StylingGoal) : Bool := goal ∈ b.styling_goals

/-- P1 `score_horizontal_stripes`: Helmholtz/Ashida stripe scoring with
zone split and width modifiers. -/
def score_horizontal_stripes (g : GarmentProfile) (b : BodyProfile) : ℚ × Bool :=
  if ¬g.has_horizontal_stripes ∧ ¬g.has_vertical_stripes then (0, true)
  else if g.has_vertical_stripes ∧ ¬g.has_horizontal_stripes then
    let base : ℚ :=
      if b.body_shape = .rectangle ∧ g.zone = "torso" then 0.03
      else if b.body_shape = .inverted_triangle ∧ g.zone = "lower_body" then -0.08
      else -0.05
    (clamp1 base, false)
  else
    let base : ℚ := 0.03
    let size_mod : ℚ :=
      if b.is_plus_size then -0.10 else if b.is_petite then 0.05 else 0
    let zone_mod : ℚ :=
      if b.body_shape = .pear then
        if g.zone = "torso" then 0.08
        else if g.zone = "lower_body" then -0.05 else 0
      else if b.body_shape = .inverted_triangle then
        if g.zone = "torso" then -0.12
        else if g.zone = "lower_body" then 0.10 else 0
      else if b.body_shape = .apple then
        if g.covers_waist then -0.05 else 0
      else if b.body_shape = .rectangle then 0.05
      else if b.body_shape = .hourglass then 0.03
      else 0
    let sw_mod : ℚ :=
      if g.stripe_width_cm > 0 then
        if g.stripe_width_cm < 1 then 0.03
        else if g.stripe_width_cm > 2 ∧ b.is_plus_size then -0.05
        else 0
      else 0
    let lum_mod : ℚ := if g.is_dark ∧ g.has_horizontal_stripes then 0.04 else 0
    (clamp1 (base + size_mod + zone_mod + sw_mod + lum_mod), false)

/-- P2 `score_dark_slimming`: irradiation illusion with skin-tone gate and
sheen override. -/
def score_dark_slimming (g : GarmentProfile) (b : BodyProfile) : ℚ × Bool :=
  if g.color_lightness > 0.65 then
    (clamp1 (-0.05 * ((g.color_lightness - 0.65) / 0.35)), false)
  else if g.color_lightness ≥ 0.25 then
    (clamp1 (max 0 (0.15 * (1 - (g.color_lightness - 0.10) / 0.55))), false)
  else
    let base : ℚ := 0.15
    let bt_mult : ℚ :=
      if b.is_petite ∧ g.zone = "full_body" then 0.6
      else if b.is_petite ∧ g.zone ≠ "full_body" then 0.9
      else if b.is_tall then 1.2
      else if b.body_shape = .inverted_triangle ∧ g.zone = "torso" then 1.4
      else if b.body_shape = .hourglass then 0.7
      else 1
    let skin_mult : ℚ :=
      if g.zone = "torso" ∨ g.zone = "full_body" then
        if b.skin_undertone = .warm then
          1 - max 0 (1 - g.color_lightness / 0.22)
        else if b.skin_darkness > 0.7 then 0.5
        else 1
      else 1
    let sheen_penalty : ℚ :=
      if g.sheen_index > 0.5 then
        let p := -0.15 * ((g.sheen_index - 0.5) / 0.5)
        if b.body_shape = .apple ∨ b.is_plus_size then p * 1.5 else p
      else 0
    (clamp1 (base * bt_mult * max skin_mult 0 + sheen_penalty), false)

/-- P3 `score_rise_elongation`: rise elongation with waistband gate and
petite inversion. -/
def score_rise_elongation (g : GarmentProfile) (b : BodyProfile) : ℚ × Bool :=
  match g.rise_cm with
  | none => (0, true)
  | some rc =>
    let base₀ := clamp ((rc - 20) * 0.015) (-0.20) 0.20
    if b.is_petite ∧ b.torso_score ≤ -1 ∧ rc > 26 then (clamp1 (-0.30), false)
    else
      let base₁ :=
        if b.is_petite then
          if b.torso_score ≥ 1 then base₀ * 1.5 else base₀ * 1.3
        else base₀
      let base₂ := if b.is_tall then base₁ * 0.5 else base₁
      let belly_gate := (b.body_shape = .apple ∨ b.is_plus_size) ∧ b.belly_zone > 0.3
      -- The Python `elif` narrow-rigid-waistband early return; its guard
      -- (width < 3 ∧ stretch < 5) already excludes the `if` branch's
      -- (width ≥ 5 ∧ stretch ≥ 8).
      if belly_gate ∧ g.waistband_width_cm < 3 ∧ g.waistband_stretch_pct < 5 then
        (clamp1 (-0.25), false)
      else
        let base₃ :=
          if belly_gate ∧ g.waistband_width_cm ≥ 5 ∧ g.waistband_stretch_pct ≥ 8
          then base₂ + 0.10 else base₂
        let base₄ :=
          if b.body_shape = .hourglass ∧ rc ≠ 0 ∧ rc > 24 then base₃ + 0.03 else base₃
        let base₅ :=
          if b.body_shape = .inverted_triangle ∧ rc ≠ 0 ∧ rc > 26 ∧
              g.expansion_rate < 0.03 then base₄ * 0.6 else base₄
        (clamp1 base₅, false)

/-- P4 `score_aline_balance`: A-line balance with drape gate and shelf
inversion. -/
def score_aline_balance (g : GarmentProfile) (b : BodyProfile) : ℚ × Bool :=
  if g.expansion_rate < 0.03 then (0, true)
  else
    let er := g.expansion_rate
    let base : ℚ :=
      if er ≤ 0.06 then 0.10 + (er - 0.03) * (0.15 / 0.03)
      else if er ≤ 0.12 then 0.25
      else if er ≤ 0.18 then 0.25 - (er - 0.12) * (0.15 / 0.06)
      else max (-0.10) (0.10 - (er - 0.18) * (0.10 / 0.12))
    let dc := g.drape_coefficient
    let drape_mult₀ : ℚ := if dc < 40 then 1 else if dc < 65 then 0.7 else -0.5
    let bt_mod : ℚ :=
      if b.body_shape = .inverted_triangle then 0.15
      else if b.is_tall then 0.10
      else if b.is_petite then (if er > 0.12 then -0.15 else 0.05)
      else if b.body_shape = .hourglass then 0.05
      else if b.body_shape = .pear then 0.05
      else if b.body_shape = .apple then 0.03
      else 0
    let drape_mult := if b.is_plus_size ∧ drape_mult₀ < 0 then drape_mult₀ * 1.5 else drape_mult₀
    let hem_mod : ℚ :=
      if b.body_shape = .pear then
        if g.hem_position = "mid_thigh" then -0.10
        else if g.hem_position = "knee" then 0.05
        else 0
      else 0
    (clamp1 (base * max drape_mult (-1) + bt_mod + hem_mod), false)

/-- P5 `score_tent_concealment`: tent concealment with dual-goal split and
body-type reversals. -/
def score_tent_concealment (g : GarmentProfile) (b : BodyProfile) : ℚ × Bool :=
  if 0.03 ≤ g.expansion_rate ∧ g.expansion_rate ≤ 0.08 then
    let score : ℚ :=
      if b.is_plus_size ∧ g.is_structured then 0.20
      else if b.body_shape = .hourglass then 0.05
      else 0.15
    (clamp1 score, false)
  else if g.expansion_rate < 0.12 then (0, true)
  else
    let er := g.expansion_rate
    let has_concealment := hasGoal b .concealment || hasGoal b .hide_midsection
    let has_slimming := hasGoal b .slimming || hasGoal b .slim_hips
    let base : ℚ :=
      if has_concealment ∧ ¬has_slimming then (if er > 0.20 then 0.35 else 0.25)
      else if has_slimming ∧ ¬has_concealment then (if er > 0.20 then -0.40 else -0.20)
      else
        (if er > 0.20 then (0.35 : ℚ) else 0.25) * 0.3
        + (if er > 0.20 then (-0.40 : ℚ) else -0.20) * 0.7
    let bt_mod : ℚ :=
      if b.body_shape = .hourglass then -0.20
      else if b.is_petite then -0.15
      else if b.is_plus_size then -0.10
      else if b.body_shape = .inverted_triangle then -0.10
      else if b.is_tall then 0.10
      else if b.body_shape = .rectangle then 0.05
      else 0
    (clamp1 (base + bt_mod), false)

/-- P6 `score_color_break`: belt/color break with hourglass reversal. -/
def score_color_break (g : GarmentProfile) (b : BodyProfile) : ℚ × Bool :=
  if ¬g.has_contrasting_belt ∧ ¬g.has_tonal_belt then (0, true)
  else if g.has_tonal_belt ∧ ¬g.has_contrasting_belt then (-0.03, false)
  else if b.body_shape = .hourglass then
    (clamp1 (if g.belt_width_cm ≥ 5 then 0.25 else 0.20), false)
  else
    let base₀ : ℚ := -0.10
    let base₁ : ℚ :=
      if b.is_petite then base₀ * 1.5
      else if b.body_shape = .apple then -0.25
      else if b.is_tall then base₀ * 0.3
      else if b.body_shape = .inverted_triangle then 0.08
      else if b.body_shape = .rectangle then 0.05
      else if b.body_shape = .pear then
        (if b.whr < 0.75 then 0.05 else -0.10)
      else base₀
    let base₂ : ℚ :=
      if b.is_plus_size then
        if b.belly_zone > 0.5 then min base₁ (-0.20)
        else if b.belly_zone < 0.2 then max base₁ 0.05
        else base₁
      else base₁
    (clamp1 base₂, false)

/-- P7 `score_bodycon_mapping`: bodycon contour mapping with fabric
construction gate. -/
def score_bodycon_mapping (g : GarmentProfile) (b : BodyProfile) : ℚ × Bool :=
  if g.expansion_rate > 0.03 then (0, true)
  else
    let is_thin := g.gsm_estimated < 200 ∧ ¬g.is_structured
    let is_structured_f := g.gsm_estimated ≥ 250 ∨ g.is_structured
    if b.body_shape = .hourglass then
      let score₀ : ℚ := if is_structured_f then 0.35 else 0.30
      let score := if b.belly_zone > 0.5 then score₀ - 0.15 else score₀
      (clamp1 score, false)
    else if b.body_shape = .apple then
      if b.is_athletic then (clamp1 0.20, false)
      else (clamp1 (if is_thin then -0.40 else -0.12), false)
    else if b.body_shape = .pear then
      (clamp1 (if is_thin then -0.30 else -0.09), false)
    else if b.is_plus_size then
      (clamp1 (if is_thin then -0.40 else -0.05), false)
    else if b.body_shape = .inverted_triangle then
      let score : ℚ :=
        if g.zone = "full_body" then -0.15
        else if g.zone = "lower_body" then -0.05
        else -0.10
      (clamp1 score, false)
    else if b.body_shape = .rectangle then (0, false)
    else (clamp1 (-0.10), false)

/-- P8 `score_matte_zone`: matte zone benefit with cling-trap override.
The body-type chain is one `elif` ladder: the moderate-sheen `base = 0.05`
override lives inside its hourglass branch, so a plus-size (or apple)
hourglass body, caught by an earlier branch, never receives it — hence
`btb` pairs each branch's multiplier with the base it leaves behind. -/
def score_matte_zone (g : GarmentProfile) (b : BodyProfile) : ℚ × Bool :=
  let si := g.sheen_index
  let base₀ : ℚ :=
    if si < 0.15 then 0.08
    else if si < 0.35 then 0.08 * (1 - (si - 0.15) / 0.20)
    else if si ≤ 0.50 then 0
    else -0.10 * ((si - 0.50) / 0.50)
  let btb : ℚ × ℚ :=
    if b.body_shape = .apple then (1.5, base₀)
    else if b.is_plus_size then (1.5, base₀)
    else if b.body_shape = .pear ∧ (g.zone = "lower_body" ∨ g.zone = "full_body") then
      (1.3, base₀)
    else if b.body_shape = .hourglass then
      (0.5, if 0.35 < si ∧ si < 0.55 then 0.05 else base₀)
    else if b.body_shape = .inverted_triangle ∧ g.zone = "torso" then (1.2, base₀)
    else (1, base₀)
  let bt_mult := btb.1
  let base := btb.2
  let cling := g.cling_risk
  if cling > 0.6 ∧ si < 0.30 then
    if b.is_plus_size then (clamp1 (-0.15), false)
    else if b.body_shape = .pear then (clamp1 (-0.10), false)
    else if b.body_shape = .apple then (clamp1 (-0.12), false)
    else (clamp1 (base * bt_mult), false)
  else (clamp1 (base * bt_mult), false)

/-- P9 `score_vneck_elongation`: V-neck elongation with the neckline × rise
cross-garment interaction. -/
def score_vneck_elongation (g : GarmentProfile) (b : BodyProfile) : ℚ × Bool :=
  let neck := necklineStr g.neckline
  if neck ≠ "v_neck" ∧ neck ≠ "deep_v" then
    if neck = "crew" then (0, false)
    else if neck = "boat" ∨ neck = "off_shoulder" then
      if b.body_shape = .inverted_triangle then (clamp1 (-0.15), false)
      else if b.body_shape = .rectangle then (clamp1 0.08, false)
      else if b.body_shape = .pear then (clamp1 0.05, false)
      else (0, false)
    else if neck = "scoop" then
      (clamp1 (if b.body_shape = .inverted_triangle then 0.08 else 0.05), false)
    else if neck = "turtleneck" then
      if b.body_shape = .inverted_triangle then (clamp1 (-0.05), false)
      else if b.is_petite ∧ b.torso_score ≤ -1 then (clamp1 0.10, false)
      else (0, false)
    else if neck = "wrap" then (clamp1 0.08, false)
    else (0, false)
  else
    let base : ℚ :=
      if b.body_shape = .inverted_triangle then 0.18
      else if b.body_shape = .hourglass then 0.12
      else if b.is_petite then
        if b.torso_score ≤ -1 then
          match g.rise_cm with
          | some rc => if rc ≠ 0 ∧ rc > 26 then -0.05 else 0.15
          | none => 0.15
        else 0.12
      else if b.body_shape = .apple then 0.10
      else if b.is_tall then 0.05
      else if b.body_shape = .pear then 0.10
      else 0.10
    (clamp1 base, false)

/-- P10 `score_monochrome_column`: monochrome column elongation. -/
def score_monochrome_column (g : GarmentProfile) (b : BodyProfile) : ℚ × Bool :=
  if ¬g.is_monochrome_outfit then (0, true)
  else
    let base : ℚ :=
      if b.is_petite then 0.15
      else if b.is_tall then 0.03
      else if b.body_shape = .hourglass then
        (if g.has_contrasting_belt ∨ g.has_tonal_belt then 0.12 else 0.03)
      else if b.body_shape = .inverted_triangle then 0.05
      else if b.body_shape = .apple then 0.08
      else if b.body_shape = .pear then
        (if g.color_lightness < 0.30 then 0.12 else 0.05)
      else if b.is_plus_size then 0.10
      else 0.08
    let dark_bonus₀ : ℚ := if g.is_dark then 0.07 else 0
    let dark_bonus := if b.is_plus_size ∧ g.is_dark then max dark_bonus₀ 0.08 else dark_bonus₀
    (clamp1 (base + dark_bonus), false)

-- ================================================================
-- PRINCIPLE SCORERS P11-P16 (engine/kridha_engine.py lines 658-1082)
-- ================================================================

/-- P11 `score_hemline`: danger-zone hemline scoring with body-type
modifiers; the final `Unknown zone` fallback is the only "N/A" return. -/
def score_hemline (g : GarmentProfile) (b : BodyProfile) : ℚ × Bool :=
  let hem := translate_hemline g b
  let zone := hem.hem_zone
  if zone = "above_knee" ∨ zone = "above_knee_near" then
    let inches_above := hem.hem_from_floor - b.h_knee
    let elongation₀ := min (inches_above * 0.20) 0.60
    let elongation₁ :=
      if b.is_petite then min (elongation₀ + (63 - b.height) / 50) 0.80 else elongation₀
    let elongation :=
      if b.is_tall ∧ b.leg_ratio_v > 0.62 then elongation₁ * 0.65 else elongation₁
    let thigh_penalty₀ : ℚ :=
      if b.c_thigh_max > 27 then -0.35
      else if b.c_thigh_max > 24 then -0.20
      else if b.c_thigh_max > 22 then -0.10
      else 0
    let thigh_penalty :=
      if b.goal_legs = some "showcase" then thigh_penalty₀ * 0.5
      else if b.goal_hip = some "narrower" then thigh_penalty₀ * 1.2
      else thigh_penalty₀
    let apple_bonus : ℚ :=
      if b.body_shape = .apple then
        if b.c_thigh_max < 22 then 0.15
        else if b.c_thigh_max < 24 then 0.08
        else 0
      else 0
    (clamp1 (elongation + thigh_penalty + apple_bonus), false)
  else if zone = "knee_danger" then
    (clamp1 (if b.is_petite then -0.40 else -0.30), false)
  else if zone = "safe_zone" then
    let score₀ : ℚ :=
      match hem.safe_zone with
      | some sz =>
        let zone_position := (sz.2 - hem.hem_from_floor) / hem.safe_zone_size
        if 0.25 ≤ zone_position ∧ zone_position ≤ 0.75 then 0.30 else 0.15
      | none => 0.15
    (clamp1 (if b.is_tall then score₀ + 0.10 else score₀), false)
  else if zone = "collapsed_zone" then (clamp1 (-0.20), false)
  else if zone = "calf_danger" then
    let base₀ : ℚ :=
      if b.calf_prominence > 1.3 then -0.50
      else if b.calf_prominence > 1.2 then -0.42
      else -0.35
    (clamp1 (if b.is_petite then base₀ * 1.15 else base₀), false)
  else if zone = "below_calf" then (clamp1 0.15, false)
  else if zone = "ankle" then
    let score₀ : ℚ :=
      if b.is_petite then
        if g.silhouette = .oversized ∨ g.silhouette = .shift then -0.15
        else if g.silhouette = .fitted ∧ g.has_waist_definition then 0.40
        else if g.silhouette = .fitted then 0.15
        else 0.10
      else if b.is_tall then 0.45
      else 0.25
    let score :=
      if b.body_shape = .hourglass ∧ ¬g.has_waist_definition then score₀ - 0.15
      else score₀
    (clamp1 score, false)
  else if zone = "floor" then
    (clamp1 (if b.is_tall then 0.15 else if b.is_petite then -0.10 else 0.05), false)
  else (0, true)

/-- P12 `score_sleeve`: perceived arm-width scoring (recomputes the
delta → raw-score table on the translated sleeve, adds the flutter bonus,
then normalizes by /5 into [-1, 1]). -/
def score_sleeve (g : GarmentProfile) (b : BodyProfile) : ℚ × Bool :=
  if g.sleeve_type = .sleeveless then (0, true)
  else
    let sleeve := translate_sleeve g b
    let delta := sleeve.delta_vs_actual
    let severity := sleeve.arm_prominence_severity
    let score₀ : ℚ :=
      if delta > 0.30 then -4
      else if delta > 0.15 then -2
      else if delta > 0 then -1
      else if delta > -0.30 then 1
      else if delta > -0.60 then 3
      else 5
    let score₁ := if score₀ < 0 then score₀ * severity else score₀ * (1 + (severity - 1) * 0.5)
    let score₂ := if g.sleeve_type = .flutter then score₁ + 2 else score₁
    (clamp (score₂ / 5) (-1) 1, false)

/-- P13 `score_waist_placement`: golden-ratio waist placement with
empire/drop/apple-belt penalties.  Note the Python `prop_score -= 0.30 if
whr > 0.88 else -0.15` subtracts the conditional expression, so the
0.85 < whr ≤ 0.88 case adds 0.15. -/
def score_waist_placement (g : GarmentProfile) (b : BodyProfile) : ℚ × Bool :=
  if g.waist_position = "no_waist" then (0, true)
  else
    let waist := translate_waistline g b
    let p₀ := waist.proportion_score
    let p₁ :=
      if g.waist_position = "empire" ∧ b.body_shape = .hourglass then
        if g.elastane_pct * 1.6 > 10 then p₀ - 0.10
        else if g.drape > 7 then p₀ - 0.15
        else p₀ - 0.30
      else p₀
    let p₂ :=
      if g.waist_position = "empire" ∧ b.bust_differential ≥ 6 ∧ g.drape < 4 then
        let tent_severity := b.bust_differential * 0.4 * (1 - g.drape / 10)
        if tent_severity > 2 then p₁ - 0.45
        else if tent_severity > 1 then p₁ - 0.25
        else p₁ - 0.10
      else p₁
    let p₃ :=
      if g.waist_position = "drop" then
        if b.leg_ratio_v < 0.55 then p₂ - 0.30
        else if b.leg_ratio_v < 0.58 then p₂ - 0.15
        else p₂
      else p₂
    let p₄ :=
      if b.body_shape = .apple ∧ g.waist_position = "natural" ∧
          g.has_contrasting_belt ∧ b.whr > 0.85 then
        p₃ - (if b.whr > 0.88 then (0.30 : ℚ) else -0.15)
      else p₃
    (clamp p₄ (-0.80) 0.80, false)

/-- P14 `score_color_value`: color-lightness slimming with the hourglass
shape-loss penalty. -/
def score_color_value (g : GarmentProfile) (b : BodyProfile) : ℚ × Bool :=
  let L := g.color_lightness * 100
  let slim_pct : ℚ :=
    if L ≤ 10 then 0.04
    else if L ≤ 25 then 0.03
    else if L ≤ 40 then 0.02
    else if L ≤ 60 then 0.005
    else if L ≤ 80 then -0.005
    else -0.01
  let slim_score := slim_pct * 6.25
  let shape_loss : ℚ :=
    if L ≤ 25 ∧ b.body_shape = .hourglass then
      let whd := b.bust - b.waist
      if whd ≥ 8 then -0.30 * (1 - L / 25)
      else if whd ≥ 6 then -0.20 * (1 - L / 25)
      else -0.10 * (1 - L / 25)
    else if L ≤ 25 ∧ b.body_shape = .rectangle then 0.05
    else 0
  let contrast_mod : ℚ :=
    if L ≤ 15 ∧ (g.zone = "torso" ∨ g.zone = "full_body") then
      let contrast := |b.skin_tone_L / 100 - L / 100|
      if contrast > 0.70 then -0.05
      else if contrast < 0.30 then 0.05
      else 0
    else 0
  (clamp1 (slim_score + shape_loss + contrast_mod), false)

/-- P15 `score_fabric_zone`: weighted multi-factor per-zone fabric
composite (cling 30%, structure 20%, sheen 15%, drape 10%, and five
zero-scored residual factors totalling 25%). -/
def score_fabric_zone (g : GarmentProfile) (b : BodyProfile) : ℚ × Bool :=
  let resolved := resolve_fabric_properties g
  let cling_score : ℚ :=
    if resolved.cling_risk_base > 0.6 then
      (if b.is_plus_size ∨ b.belly_zone > 0.5 then -0.40 else -0.20)
    else if resolved.cling_risk_base > 0.3 then -0.05
    else 0.10
  let struct_score : ℚ :=
    if resolved.is_structured then 0.15
    else if resolved.effective_gsm > 250 then 0.08
    else if resolved.effective_gsm < 100 then -0.10
    else 0
  let sheen_score := (score_matte_zone g b).1
  let dc := resolved.drape_coefficient
  let drape_score : ℚ :=
    if dc < 30 then 0.10
    else if dc < 50 then 0.05
    else if dc < 70 then 0
    else -0.10
  let total := cling_score * 0.30 + struct_score * 0.20 + sheen_score * 0.15
    + drape_score * 0.10 + 0 * 0.08 + 0 * 0.05 + 0 * 0.05 + 0 * 0.04 + 0 * 0.03
  let total_w : ℚ := 0.30 + 0.20 + 0.15 + 0.10 + 0.08 + 0.05 + 0.05 + 0.04 + 0.03
  let composite := if total_w > 0 then total / total_w else 0
  (clamp1 composite, false)

/-- P16 `score_neckline_compound`: compound neckline scoring (bust
dividing threshold, torso slimming by V angle, upper-body balance). -/
def score_neckline_compound (g : GarmentProfile) (b : BodyProfile) : ℚ × Bool :=
  let neck := necklineStr g.neckline
  if ¬(neck = "v_neck" ∨ neck = "deep_v" ∨ neck = "wrap" ∨ neck = "scoop") then
    (0, true)
  else
    let depth :=
      match g.neckline_depth with
      | some d =>
        if d = 0 then (if g.v_depth_cm > 0 then g.v_depth_cm / 2.54 else 4) else d
      | none => if g.v_depth_cm > 0 then g.v_depth_cm / 2.54 else 4
    let bd := b.bust_differential
    let threshold := get_bust_dividing_threshold bd
    let fabric_stretch := g.elastane_pct * 0.01
    let effective_depth₀ := depth + fabric_stretch * 1
    let effective_depth₁ :=
      if b.body_shape = .hourglass ∧ bd ≥ 6 then effective_depth₀ + 0.75
      else effective_depth₀
    let effective_depth :=
      if b.is_plus_size ∧ bd ≥ 8 then effective_depth₁ + 1 else effective_depth₁
    let depth_ratio_v := if threshold > 0 then effective_depth / threshold else 1
    let bust_score : ℚ :=
      if depth_ratio_v < 0.60 then 0.30
      else if depth_ratio_v < 0.85 then 0.50
      else if depth_ratio_v < 1 then
        if b.goal_bust = some "enhance" then 0.70
        else if b.goal_bust = some "minimize" then -0.20
        else 0.30
      else if depth_ratio_v < 1.15 then
        if b.goal_bust = some "enhance" then 0.30
        else if b.goal_bust = some "minimize" then -0.60
        else -0.15
      else
        if b.goal_bust = some "enhance" then 0.10
        else if b.goal_bust = some "minimize" then -0.85
        else -0.35
    let v_width := g.v_depth_cm * 0.8
    let v_angle := if depth > 0 then v_width / depth else 1
    let torso_base₀ : ℚ :=
      if v_angle < 0.5 then 0.25
      else if v_angle < 1 then 0.18
      else if v_angle < 1.5 then 0.10
      else 0.05
    let torso_base :=
      if b.body_shape = .apple then torso_base₀ * 1.30
      else if b.body_shape = .rectangle then torso_base₀ * 1.15
      else torso_base₀
    let balance : ℚ :=
      if b.body_shape = .inverted_triangle then 0.45
      else if b.body_shape = .pear then 0.30
      else if b.body_shape = .rectangle then 0.20
      else if b.body_shape = .hourglass then 0.10
      else 0.15
    (clamp1 (bust_score * 0.40 + torso_base * 0.30 + balance * 0.30), false)

-- ================================================================
-- COMPOSITE PIPELINE (engine/kridha_engine.py lines 1090-1409)
-- ================================================================

/-- `_SCORERS`: the sixteen generic principle scorers with their names. -/
def scorersList : List (String × (GarmentProfile → BodyProfile → ℚ × Bool)) :=
  [ ("H-Stripe Thinning", score_horizontal_stripes),
    ("Dark/Black Slimming", score_dark_slimming),
    ("Rise Elongation", score_rise_elongation),
    ("A-Line Balance", score_aline_balance),
    ("Tent Concealment", score_tent_concealment),
    ("Color Break", score_color_break),
    ("Bodycon Mapping", score_bodycon_mapping),
    ("Matte Zone", score_matte_zone),
    ("V-Neck Elongation", score_vneck_elongation),
    ("Monochrome Column", score_monochrome_column),
    ("Hemline", score_hemline),
    ("Sleeve", score_sleeve),
    ("Waist Placement", score_waist_placement),
    ("Color Value", score_color_value),
    ("Fabric Zone", score_fabric_zone),
    ("Neckline Compound", score_neckline_compound) ]

/-- `_BASE_WEIGHTS` with the Python `.get(name, 0.10)` default. -/
def baseWeight (name : String) : ℚ :=
  if name = "H-Stripe Thinning" then 0.10
  else if name = "Dark/Black Slimming" then 0.08
  else if name = "Rise Elongation" then 0.08
  else if name = "A-Line Balance" then 0.10
  else if name = "Tent Concealment" then 0.12
  else if name = "Color Break" then 0.08
  else if name = "Bodycon Mapping" then 0.12
  else if name = "Matte Zone" then 0.06
  else if name = "V-Neck Elongation" then 0.10
  else if name = "Monochrome Column" then 0.06
  else if name = "Hemline" then 0.18
  else if name = "Sleeve" then 0.15
  else if name = "Waist Placement" then 0.15
  else if name = "Color Value" then 0.08
  else if name = "Fabric Zone" then 0.10
  else if name = "Neckline Compound" then 0.12
  else 0.10

/-- `_GOAL_WEIGHT_BOOSTS`: goal → (principle name → weight boost). -/
def goalWeightBoosts (goal : StylingGoal) : List (String × ℚ) :=
  match goal with
  | .look_taller =>
    [("Monochrome Column", 1.5), ("Rise Elongation", 1.3),
     ("V-Neck Elongation", 1.3), ("Hemline", 1.3),
     ("Pant Rise", 1.5), ("Top Hemline", 1.2)]
  | .highlight_waist =>
    [("Color Break", 1.5), ("Bodycon Mapping", 1.3), ("Waist Placement", 1.5),
     ("Pant Rise", 1.3), ("Jacket Scoring", 1.2)]
  | .hide_midsection =>
    [("Tent Concealment", 1.5), ("Dark/Black Slimming", 1.3),
     ("Matte Zone", 1.3), ("Fabric Zone", 1.2),
     ("Top Hemline", 1.3), ("Jacket Scoring", 1.2)]
  | .slim_hips =>
    [("Dark/Black Slimming", 1.5), ("A-Line Balance", 1.3),
     ("Matte Zone", 1.3), ("Hemline", 1.2),
     ("Leg Shape", 1.5), ("Top Hemline", 1.3)]
  | .look_proportional =>
    [("Waist Placement", 1.5), ("Hemline", 1.3), ("Rise Elongation", 1.3),
     ("Pant Rise", 1.3)]
  | .minimize_arms =>
    [("Sleeve", 1.5), ("Matte Zone", 1.3), ("Jacket Scoring", 1.2)]
  | .slimming =>
    [("Dark/Black Slimming", 1.5), ("Matte Zone", 1.5),
     ("H-Stripe Thinning", 1.3), ("Tent Concealment", 1.5)]
  | .concealment =>
    [("Tent Concealment", 1.5), ("Matte Zone", 1.3)]
  | .emphasis =>
    [("Bodycon Mapping", 1.5), ("Color Break", 1.5), ("V-Neck Elongation", 1.5)]
  | .balance => []

/-- `_TYPE_SCORER_FUNCS` lookup. -/
def typeScorerFn (name : String) :
    Option (GarmentProfile → BodyProfile → ℚ × Bool) :=
  if name = "Top Hemline" then some score_top_hemline
  else if name = "Pant Rise" then some score_pant_rise
  else if name = "Leg Shape" then some score_leg_shape
  else if name = "Jacket Scoring" then some score_jacket_scoring
  else none

/-- Build one scored `PrincipleResult` in Layer 2: run the scorer, apply
the structured penalty reduction to negative scores, and apply the
"N/A" applicability gate (`abs(score) < 0.001 and "n/a" in reasoning`). -/
def mkScoredResult (name : String)
    (scorer : GarmentProfile → BodyProfile → ℚ × Bool)
    (g : GarmentProfile) (b : BodyProfile)
    (penalty_reduction weight₀ confidence : ℚ) : PrincipleResult :=
  let score₀ := (scorer g b).1
  let na := (scorer g b).2
  let score :=
    if score₀ < 0 ∧ penalty_reduction < 1 then score₀ * penalty_reduction else score₀
  let na_gate : Bool := decide (|score| < 0.001) && na
  { name := name, score := score, na := na,
    weight := if na_gate then 0 else weight₀,
    applicable := !na_gate,
    confidence := confidence }

/-- Layer 2 element scoring: the sixteen generic scorers (skipped ones
become inapplicable placeholders with weight 0 and confidence 0) followed
by the category's type-specific scorers (hard-coded confidence 0.70). -/
def element_results (g : GarmentProfile) (b : BodyProfile)
    (penalty_reduction : ℚ) (cat : GarmentCategory) : List PrincipleResult :=
  scorersList.map (fun entry =>
    let (name, scorer) := entry
    if name ∈ scorersToSkip cat then
      { name := name, score := 0, na := true, weight := 0,
        applicable := false, confidence := 0 }
    else
      mkScoredResult name scorer g b penalty_reduction
        (baseWeight name) (principleConfidence name))
  ++ (extraScorerNames cat).filterMap (fun nm =>
      (typeScorerFn nm).map (fun f =>
        mkScoredResult nm f g b penalty_reduction (typeScorerWeight nm) 0.70))

/-- Layer 3 perceptual calibration (`engine/kridha_engine.py` lines
1284-1302), processed sequentially exactly as the Python loop mutates the
list in place.  For each applicable result, in list order: multiply its
weight by every matching goal boost, amplify by 1.2 when its score is
below −0.15, then cap it at 0.35 × the sum of applicable weights *at that
moment* (earlier results already calibrated, this result's boosted weight
included, later results still uncalibrated).  Each applicable result is
paired with the cap base (that momentary sum) for auditing; inapplicable
results are paired with 0 and left untouched. -/
def calibrateGo (goals : List StylingGoal)
    (acc : List (PrincipleResult × ℚ)) :
    List PrincipleResult → List (PrincipleResult × ℚ)
  | [] => acc.reverse
  | r :: rest =>
    if r.applicable then
      let w₁ := goals.foldl (fun w goal =>
        match (goalWeightBoosts goal).lookup r.name with
        | some f => w * f
        | none => w) r.weight
      let w₂ := if r.score < -0.15 then w₁ * 1.2 else w₁
      let snapshot := (acc.reverse.map Prod.fst) ++ ({r with weight := w₂} :: rest)
      let total := ((snapshot.filter (fun p => p.applicable)).map (fun p => p.weight)).sum
      let w₃ := min w₂ (0.35 * total)
      calibrateGo goals (({r with weight := w₃}, total) :: acc) rest
    else
      calibrateGo goals ((r, 0) :: acc) rest

/-- The applicable results (`active` in Layer 7). -/
def activeOf (rs : List PrincipleResult) : List PrincipleResult :=
  rs.filter (fun r => r.applicable)

/-- Total applicable weight (`tw` in Layer 7). -/
def totalWeightOf (rs : List PrincipleResult) : ℚ :=
  ((activeOf rs).map (fun r => r.weight)).sum

/-- The weighted-and-confidence-weighted composite before the silhouette
dominance override: `Σ(score·weight·confidence) / Σ(weight·confidence)`
over applicable results, 0 when the total weight is 0. -/
def compositePreOf (rs : List PrincipleResult) : ℚ :=
  if totalWeightOf rs = 0 then 0
  else
    ((activeOf rs).map (fun r => r.score * r.weight * r.confidence)).sum /
    ((activeOf rs).map (fun r => r.weight * r.confidence)).sum

/-- The worst applicable silhouette score: minimum score among applicable
"Tent Concealment" / "Bodycon Mapping" results, 0 if neither is
applicable. -/
def worstSilOf (rs : List PrincipleResult) : ℚ :=
  let sils := ((activeOf rs).filter (fun r =>
    r.name = "Tent Concealment" ∨ r.name = "Bodycon Mapping")).map (fun r => r.score)
  match sils with
  | [] => 0
  | x :: xs => xs.foldl min x

/-- The slimming-goal gate of the silhouette dominance override. -/
def hasSlimmingGoals (goals : List StylingGoal) : Bool :=
  StylingGoal.slimming ∈ goals || StylingGoal.slim_hips ∈ goals ||
  StylingGoal.hide_midsection ∈ goals

/-- `ZoneScore` from `engine/schemas.py`; each flag string
`f"{name}: {score:+.2f}"` is abstracted to its `(name, score)` data. -/
structure ZoneScore where
  zone : String
  score : ℚ
  flags : List (String × ℚ) := []
deriving DecidableEq

/-- `Fix` from `engine/schemas.py`. -/
structure Fix where
  what_to_change : String
  expected_improvement : ℚ
  priority : ℕ := 1
deriving DecidableEq

/-- `ScoreResult` from `engine/schemas.py` (the reasoning chain, a
free-text log, and the advisory layer-modification notes are omitted). -/
structure ScoreResult where
  overall_score : ℚ := 5
  composite_raw : ℚ := 0
  confidence : ℚ := 0.70
  principle_scores : List PrincipleResult := []
  goal_verdicts : List GoalVerdict := []
  zone_scores : List (String × ZoneScore) := []
  exceptions : List ExceptionTriggered := []
  fixes : List Fix := []
  body_adjusted : BodyAdjustedGarment := {}
deriving DecidableEq

/-- The principle → zone mapping of `_compute_zone_scores`, extended with
`TYPE_SCORER_ZONE_MAPPING` (default `[]`). -/
def zoneMapping (name : String) : List String :=
  if name = "H-Stripe Thinning" then ["torso"]
  else if name = "Dark/Black Slimming" then ["torso"]
  else if name = "Rise Elongation" then ["waist"]
  else if name = "A-Line Balance" then ["hip"]
  else if name = "Tent Concealment" then ["torso", "hip"]
  else if name = "Color Break" then ["waist"]
  else if name = "Bodycon Mapping" then ["torso", "hip", "thigh"]
  else if name = "Matte Zone" then ["torso", "hip"]
  else if name = "V-Neck Elongation" then ["bust", "shoulder"]
  else if name = "Monochrome Column" then ["torso"]
  else if name = "Hemline" then ["knee", "calf", "ankle"]
  else if name = "Sleeve" then ["upper_arm", "shoulder"]
  else if name = "Waist Placement" then ["waist"]
  else if name = "Color Value" then ["torso"]
  else if name = "Fabric Zone" then ["torso", "hip"]
  else if name = "Neckline Compound" then ["bust"]
  else typeScorerZoneMapping name

/-- Append one principle's score (and flag, when below −0.20) to the
accumulator entry for `zone`, first-seen order preserved. -/
def zoneUpsert (zone : String) (p : PrincipleResult) :
    List (String × List ℚ × List (String × ℚ)) →
    List (String × List ℚ × List (String × ℚ))
  | [] => [(zone, ([p.score], if p.score < -0.20 then [(p.name, p.score)] else []))]
  | (z, scores, flags) :: rest =>
    if z = zone then
      (z, scores ++ [p.score],
       flags ++ (if p.score < -0.20 then [(p.name, p.score)] else [])) :: rest
    else (z, scores, flags) :: zoneUpsert zone p rest

/-- Stable insertion into a list sorted by a `Bool` "less-or-equal"
comparator. -/
def insertLe {α : Type} (le : α → α → Bool) (x : α) : List α → List α
  | [] => [x]
  | y :: ys => if le x y then x :: y :: ys else y :: insertLe le x ys

/-- Stable insertion sort (mirrors Python's stable `sorted`). -/
def sortLe {α : Type} (le : α → α → Bool) (l : List α) : List α :=
  l.foldr (insertLe le) []

/-- `_compute_zone_scores` from `engine/kridha_engine.py` lines 1416-1468:
per-zone score lists from applicable principles, averaged, rounded to 3
decimals and returned keyed and sorted by zone name. -/
def compute_zone_scores (principles : List PrincipleResult) :
    List (String × ZoneScore) :=
  let zones := principles.foldl (fun acc p =>
    if p.applicable then
      (zoneMapping p.name).foldl (fun acc' z => zoneUpsert z p acc') acc
    else acc) []
  let sorted := sortLe (fun a b => ¬(compare a.1 b.1).isGT) zones
  sorted.map (fun entry =>
    let (zone, scores, flags) := entry
    let avg := if scores.length = 0 then 0 else scores.sum / scores.length
    (zone, { zone := zone, score := pyRound 3 avg, flags := flags }))

/-- The `fix_suggestions` table of `_suggest_fixes`. -/
def fixSuggestion (name : String) : Option (String × ℚ) :=
  if name = "Tent Concealment" then
    some ("Try semi-fitted silhouette (ER 0.03-0.08)", 0.20)
  else if name = "Bodycon Mapping" then
    some ("Add structured layer or choose heavier fabric (GSM 250+)", 0.25)
  else if name = "Color Break" then
    some ("Remove contrasting belt or switch to tonal belt", 0.10)
  else if name = "A-Line Balance" then
    some ("Choose fabric with lower drape coefficient (<40%)", 0.15)
  else if name = "Rise Elongation" then
    some ("Choose wider elastic waistband (5cm+, 8%+ stretch)", 0.15)
  else if name = "V-Neck Elongation" then
    some ("Choose V-neck instead of boat/turtleneck", 0.12)
  else if name = "Hemline" then
    some ("Adjust hem to avoid knee/calf danger zones", 0.20)
  else if name = "Sleeve" then
    some ("Choose 3/4 sleeve for optimal arm slimming", 0.25)
  else if name = "H-Stripe Thinning" then
    some ("Replace horizontal stripes with solid or vertical lines", 0.10)
  else if name = "Dark/Black Slimming" then
    some ("Choose dark chocolate/burgundy for warm skin tones", 0.08)
  else if name = "Top Hemline" then
    some ("Try tucking in or choosing a cropped/waist-length top", 0.20)
  else if name = "Pant Rise" then
    some ("Choose high-rise pants to elongate your leg line", 0.25)
  else if name = "Leg Shape" then
    some ("Try wide-leg or straight-leg pants for your body type", 0.20)
  else if name = "Jacket Scoring" then
    some ("Try a cropped or waist-length jacket with natural shoulders", 0.15)
  else none

/-- `_suggest_fixes` from `engine/kridha_engine.py` lines 1471-1511:
the three worst applicable principles below −0.15, mapped through the
fix table. -/
def suggest_fixes (principles : List PrincipleResult) : List Fix :=
  let worst := sortLe (fun a b => a.score ≤ b.score)
    (principles.filter (fun p => p.applicable && decide (p.score < -0.15)))
  (worst.take 3).filterMap (fun p =>
    (fixSuggestion p.name).map (fun sug =>
      { what_to_change := sug.1, expected_improvement := sug.2,
        priority := if p.score < -0.30 then 1 else 2 }))

/-- Layer 7 composite aggregation (`engine/kridha_engine.py` lines
1331-1409): neutral short circuit when nothing is applicable, otherwise
the confidence-weighted composite, the silhouette dominance override,
clamping, display rescale, and rounding. -/
def composite_layer (principle_results : List PrincipleResult)
    (goals : List StylingGoal) (goal_verdicts : List GoalVerdict)
    (body_adjusted : BodyAdjustedGarment)
    (exceptions : List ExceptionTriggered) : ScoreResult :=
  let active := activeOf principle_results
  if active = [] then
    { overall_score := 5, composite_raw := 0, confidence := 0.50,
      principle_scores := principle_results, goal_verdicts := goal_verdicts,
      zone_scores := [], exceptions := exceptions, fixes := [],
      body_adjusted := body_adjusted }
  else
    let composite₀ := compositePreOf principle_results
    let worst_sil := worstSilOf principle_results
    let composite₁ :=
      if worst_sil < -0.20 ∧ hasSlimmingGoals goals ∧ composite₀ > 0 then
        worst_sil * 0.3
      else composite₀
    let composite := clamp1 composite₁
    let overall := rescale_display (score_to_ten composite)
    let avg_confidence := ((active.map (fun r => r.confidence)).sum) / (active.length : ℚ)
    { overall_score := pyRound 1 overall,
      composite_raw := pyRound 4 composite,
      confidence := pyRound 2 avg_confidence,
      principle_scores := principle_results,
      goal_verdicts := goal_verdicts,
      zone_scores := compute_zone_scores principle_results,
      exceptions := exceptions,
      fixes := suggest_fixes principle_results,
      body_adjusted := body_adjusted }

/-- The category `score_garment` writes back into the garment. -/
def pipeline_category (g : GarmentProfile) : GarmentCategory := classify_garment g

/-- The garment as mutated by `score_garment` (category write-back). -/
def pipeline_garment (g : GarmentProfile) : GarmentProfile :=
  { g with category := classify_garment g }

/-- Layer 1: the fabric-gate exceptions for this call (computed on the
original garment; `resolve_fabric_properties` never reads `category`). -/
def pipeline_exceptions (g : GarmentProfile) (b : BodyProfile) :
    List ExceptionTriggered :=
  run_fabric_gates g b (resolve_fabric_properties g)

/-- Layer 2 output for this call. -/
def element_results_of (g : GarmentProfile) (b : BodyProfile) :
    List PrincipleResult :=
  element_results (pipeline_garment g) b
    (get_structured_penalty_reduction (pipeline_exceptions g b))
    (pipeline_category g)

/-- Layer 3 output with recorded cap bases. -/
def calibrate_pairs (g : GarmentProfile) (b : BodyProfile) :
    List (PrincipleResult × ℚ) :=
  calibrateGo b.styling_goals [] (element_results_of g b)

/-- The calibrated principle results entering Layers 4-7. -/
def calibrated_results (g : GarmentProfile) (b : BodyProfile) :
    List PrincipleResult :=
  (calibrate_pairs g b).map Prod.fst

/-- `score_garment` from `engine/kridha_engine.py` lines 1175-1409,
returning both the `ScoreResult` and the garment as mutated by the
category write-back.  The context adjustments are computed but — exactly
as in the Python, where they only feed a log line — never applied to any
score. -/
def score_garment_full (g : GarmentProfile) (b : BodyProfile)
    (context : Option Context) : ScoreResult × GarmentProfile :=
  let principle_results := calibrated_results g b
  let goal_verdicts := score_goals principle_results b
  let body_adjusted := translate_garment_to_body (pipeline_garment g) b
  let _context_adjustments :=
    context.map (fun c => apply_context_modifiers c principle_results (pipeline_garment g))
  (composite_layer principle_results b.styling_goals goal_verdicts body_adjusted
    (pipeline_exceptions g b),
   pipeline_garment g)

/-- The `ScoreResult` of `score_garment`. -/
def score_garment (g : GarmentProfile) (b : BodyProfile)
    (context : Option Context) : ScoreResult :=
  (score_garment_full g b context).1

-- ================================================================
-- SPEC-SIDE MODEL OF THE FABRIC RESOLVER (for claim C4)
-- ================================================================

/-- The four Fabric-Resolver outputs named by claim C4. -/
structure FabricSpecView where
  total_stretch_pct : ℚ
  effective_gsm : ℚ
  cling_risk_base : ℚ
  is_structured : Bool
deriving DecidableEq

/-- The Fabric Resolver exactly as the specification words it (§4.1 /
claim C4), independent of the source: `total_stretch = elastane_pct ×
construction_multiplier` (woven 1.6, knit 4.0, knit_rib 5.5, knit_double
3.5, knit_jersey 4.0), overridden by the named fabric's `typical_stretch`
when `elastane_pct` is 0 and the lookup exists; `effective_gsm = gsm ×
fiber_multiplier` (1.0 for unknown fibers); cling risk = average of the
three factors stretch/20, `max(0, 1 − gsm/300)` (on the effective GSM just
defined) and `max(0, 1 − friction)`, clamped to [0, 1]; structured =
structured OR lined. -/
def resolve_fabric_spec (g : GarmentProfile) : FabricSpecView :=
  let construction_multiplier : ℚ :=
    match g.construction with
    | .woven => 1.6 | .knit => 4 | .knit_rib => 5.5
    | .knit_double => 3.5 | .knit_jersey => 4
  let total_stretch : ℚ :=
    match g.fabric_name with
    | some nm =>
      match get_fabric_data nm with
      | some typical_stretch =>
        if g.elastane_pct = 0 then typical_stretch
        else g.elastane_pct * construction_multiplier
      | none => g.elastane_pct * construction_multiplier
    | none => g.elastane_pct * construction_multiplier
  let effective_gsm := g.gsm_estimated * fiberGsmMultiplier g.primary_fiber
  let cling := clamp ((total_stretch / 20 + max 0 (1 - effective_gsm / 300)
      + max 0 (1 - g.surface_friction)) / 3) 0 1
  { total_stretch_pct := total_stretch, effective_gsm := effective_gsm,
    cling_risk_base := cling, is_structured := g.is_structured || g.has_lining }

/-- Projection of the source resolver output onto the four fields claim C4
names, for comparison with the spec-side model. -/
def fabricSpecOf (r : ResolvedFabric) : FabricSpecView :=
  { total_stretch_pct := r.total_stretch_pct, effective_gsm := r.effective_gsm,
    cling_risk_base := r.cling_risk_base, is_structured := r.is_structured }

-- ================================================================
-- CALIBRATION VIEW (Layer 3 invariants)
-- ================================================================

/-- The components of a `PrincipleResult` that Layer 3 calibration never
changes: everything except the weight of an applicable result (which is
boosted, amplified and capped).  `frozen_weight` is the weight for
inapplicable results and 0 for applicable ones. -/
structure CalibView where
  name : String
  applicable : Bool
  score : ℚ
  na : Bool
  confidence : ℚ
  frozen_weight : ℚ
deriving DecidableEq

/-- Project a `PrincipleResult` onto its calibration-invariant parts. -/
def calibView (r : PrincipleResult) : CalibView :=
  { name := r.name, applicable := r.applicable, score := r.score,
    na := r.na, confidence := r.confidence,
    frozen_weight := if r.applicable then 0 else r.weight }

-- ================================================================
-- CONCRETE PROFILES USED BY WITNESSES AND COUNTEREXAMPLES
-- ================================================================

/-- A `BodyProfile` with every field at its Python default. -/
def defaultBody : BodyProfile := {}

/-- A `GarmentProfile` with every field at its Python default. -/
def defaultGarment : GarmentProfile := {}

/-- A garment with a (nonsensical but type-admissible) negative elastane
percentage: its three-factor cling average is negative, where the source's
`min(1, avg)` and the spec's clamp to `[0, 1]` disagree. -/
def c4NegGarment : GarmentProfile := { elastane_pct := -100 }

/-- Pear-shaped body (34-28-40, narrow shoulders) with the
`hide_midsection` goal. -/
def c1Body : BodyProfile := {
  height := 66, bust := 34, underbust := 30, waist := 28, hip := 40,
  shoulder_width := 13, styling_goals := [.hide_midsection] }

/-- Thin unstructured bodycon dress (ER 0.02, 190 GSM, dark, sleeveless,
ankle hem). -/
def c1Garment : GarmentProfile := {
  expansion_rate := 0.02, gsm_estimated := 190, color_lightness := 0.10,
  sleeve_type := .sleeveless, hem_position := "ankle" }

/-- The body of the spec's end-to-end scenario:
`BodyProfile(height=66, bust=38, waist=27, hip=39)` with
`styling_goals=[EMPHASIS]`. -/
def c2Body : BodyProfile := {
  height := 66, bust := 38, waist := 27, hip := 39, styling_goals := [.emphasis] }

/-- The garment of the spec's end-to-end scenario. -/
def c2Garment : GarmentProfile := {
  category := .dress, expansion_rate := 0.02, gsm_estimated := 280,
  is_structured := true, color_lightness := 0.08, surface := .matte,
  neckline := .v_neck, has_contrasting_belt := true, belt_width_cm := 5,
  is_monochrome_outfit := true, hem_position := "knee" }

/-- Default-measurement body with the `look_taller` goal. -/
def c3Body : BodyProfile := { styling_goals := [.look_taller] }

/-- Low-rise pants (bodycon ER, no waist definition) whose `Pant Rise`
weight gets goal-boosted, amplified, and capped. -/
def c3Garment : GarmentProfile := {
  category := .bottom_pants, expansion_rate := 0.02,
  waist_position := "no_waist", rise := some "low" }

/-- A pants garment with all other fields at their defaults — in
particular, no rise or leg-shape data. -/
def c5Garment : GarmentProfile := { category := .bottom_pants }

/-- A pants garment carrying recognized rise and leg-shape data. -/
def c5PantsGarment : GarmentProfile := {
  category := .bottom_pants, rise := some "high", leg_shape := some "straight" }

/-- A garment with a contrasting belt, all else default. -/
def c6BeltGarment : GarmentProfile := { has_contrasting_belt := true }

/-- A petite body (62") that classifies as hourglass
(40-26-40, shoulders 12"). -/
def c6PetiteHourglassBody : BodyProfile := {
  height := 62, bust := 40, underbust := 33, waist := 26, hip := 40,
  shoulder_width := 12 }

/-- A non-petite hourglass body. -/
def c6HourglassBody : BodyProfile := {
  height := 66, bust := 40, underbust := 33, waist := 26, hip := 40,
  shoulder_width := 12 }

/-- A petite pear body (not hourglass, not plus-size). -/
def c6PetitePearBody : BodyProfile := {
  height := 60, bust := 34, underbust := 30, waist := 28, hip := 40,
  shoulder_width := 13 }

/-- A principle-result list with no applicable entry (one "N/A" result). -/
def c7Results : List PrincipleResult :=
  [{ name := "H-Stripe Thinning", score := 0, na := true, weight := 0,
     applicable := false, confidence := 0.70 }]

/-- A garment classified as a top: the garment-type router skips the
`Hemline` scorer for it. -/
def c8TopGarment : GarmentProfile := { category := .top }

end Kridha

-- ================================================================
-- THEOREMS
-- ================================================================

namespace Kridha

/-- Helper: a `List.lookup` hit over an association list of nonnegative
values is nonnegative. -/
theorem lookup_nonneg {l : List (String × ℚ)} (hl : ∀ p ∈ l, 0 ≤ p.2) :
    ∀ {s : String} {t : ℚ}, l.lookup s = some t → 0 ≤ t := by
  induction l with
  | nil => intro s t h; simp [List.lookup] at h
  | cons p rest ih =>
    intro s t h
    rw [List.lookup] at h
    rcases hp : s == p.1 with _ | _
    · rw [hp] at h
      exact ih (fun q hq => hl q (List.mem_cons_of_mem p hq)) h
    · rw [hp] at h
      simp only [Option.some.injEq] at h
      subst h
      exact hl p (List.mem_cons_self p rest)

/-- Helper: every `typical_stretch` in the fabric table is nonnegative. -/
theorem fabricLookup_nonneg : ∀ p ∈ fabricLookup, (0:ℚ) ≤ p.2 := by decide

/-- Helper: `min 1 x` equals the `[0, 1]` clamp of `x` when `x` is
nonnegative. -/
theorem min_one_eq_clamp {x : ℚ} (hx : 0 ≤ x) : min 1 x = clamp x 0 1 := by
  unfold clamp
  rw [max_eq_right (le_min (by norm_num) hx)]

/-- Helper: the `min 1` cap of the source equals the spec's `[0, 1]` clamp
when the stretch factor is nonnegative. -/
theorem cling_min_eq_clamp {s gsm fr : ℚ} (hs : 0 ≤ s) :
    min 1 ((s / 20 + max 0 (1 - gsm / 300) + max 0 (1 - fr)) / 3)
      = clamp ((s / 20 + max 0 (1 - gsm / 300) + max 0 (1 - fr)) / 3) 0 1 := by
  have havg : 0 ≤ (s / 20 + max 0 (1 - gsm / 300) + max 0 (1 - fr)) / 3 := by
    have h1 : 0 ≤ s / 20 := by positivity
    have h2 : (0:ℚ) ≤ max 0 (1 - gsm / 300) := le_max_left 0 _
    have h3 : (0:ℚ) ≤ max 0 (1 - fr) := le_max_left 0 _
    linarith
  unfold clamp
  rw [max_eq_right (le_min (by norm_num) havg)]

/-- Claim C2 (counterexample to the claim as stated): the scenario body
(66", 38-27-39, default 15.5" shoulders) does not classify as hourglass —
its shoulder-to-hip ratio 15.5/(39/π) ≈ 1.25 falls outside the hourglass
band [0.85, 1.15]. -/
theorem C2_counterexample : c2Body.body_shape ≠ BodyShape.hourglass := by decide

set_option maxRecDepth 1000000 in
/-- Claim C2 (amended): the spec's end-to-end scenario garment scored
against the scenario body yields a strictly positive raw composite within
[0, 0.60] (it is exactly 0.061), but the body classifies as
inverted-triangle, not hourglass. -/
theorem C2_end_to_end_scenario :
    0 < (score_garment c2Garment c2Body none).composite_raw ∧
    (score_garment c2Garment c2Body none).composite_raw ≤ 0.60 ∧
    c2Body.body_shape = BodyShape.inverted_triangle := by decide

/-- Claim C6 (counterexample to the claim as stated): a petite body that
classifies as hourglass takes the hourglass-reversal branch first, so the
Color-Break score of a contrasting belt is strictly positive (+0.20), not
negative. -/
theorem C6_counterexample :
    c6PetiteHourglassBody.is_petite = true ∧
    c6BeltGarment.has_contrasting_belt = true ∧
    0 < (score_color_break c6BeltGarment c6PetiteHourglassBody).1 := by decide

end Kridha

namespace Kridha

/-- Claim C6 (amended): for every garment with a contrasting belt, the
Color-Break scorer returns a strictly positive score on every body whose
shape classifies as hourglass; and it returns a strictly negative score on
every petite body, provided that body is not itself hourglass (the
hourglass reversal takes precedence) and not plus-size with a belly-zone
concern below 0.2 (where the plus-size adjustment lifts the score to
+0.05). -/
theorem C6_color_break_reversal (g : GarmentProfile) (b : BodyProfile)
    (hbelt : g.has_contrasting_belt = true) :
    (b.body_shape = BodyShape.hourglass → 0 < (score_color_break g b).1) ∧
    (b.is_petite = true → b.body_shape ≠ BodyShape.hourglass →
      ¬(b.is_plus_size = true ∧ b.belly_zone < 0.2) →
      (score_color_break g b).1 < 0) := by
  constructor
  · intro hshape
    simp only [score_color_break, hbelt, hshape]
    norm_num
    split_ifs <;> norm_num [clamp1, clamp]
  · intro hpet hnh hnp
    simp only [score_color_break, hbelt, hpet]
    norm_num [hnh]
    split_ifs with h1 h2 h3 <;>
      norm_num [clamp1, clamp] <;>
      exact hnp ⟨h1, by linarith⟩

/-- Claim C6 (witness): the amended theorem applied to a contrasting-belt
garment on a concrete hourglass body (score +0.20 > 0) and on a concrete
petite pear body (score −0.15 < 0). -/
theorem C6_witness :
    c6BeltGarment.has_contrasting_belt = true ∧
    c6HourglassBody.body_shape = BodyShape.hourglass ∧
    0 < (score_color_break c6BeltGarment c6HourglassBody).1 ∧
    c6PetitePearBody.is_petite = true ∧
    (score_color_break c6BeltGarment c6PetitePearBody).1 < 0 :=
  ⟨by decide, by decide,
   (C6_color_break_reversal c6BeltGarment c6HourglassBody (by decide)).1 (by decide),
   by decide,
   (C6_color_break_reversal c6BeltGarment c6PetitePearBody (by decide)).2
     (by decide) (by decide) (by decide)⟩

end Kridha

namespace Kridha

/-- Claim C4 (counterexample to the claim as stated): the claim
quantifies over every `GarmentProfile`, but at a negative elastane
percentage the three-factor cling average is negative, and the source's
`min(1, avg)` (= avg < 0) differs from the claimed clamp to `[0, 1]`
(= 0). -/
theorem C4_counterexample :
    c4NegGarment.elastane_pct < 0 ∧
    fabricSpecOf (resolve_fabric_properties c4NegGarment) ≠
      resolve_fabric_spec c4NegGarment := by
  decide

/-- Claim C4 (amended): for every garment with a nonnegative elastane
percentage, the source fabric resolver `resolve_fabric_properties` agrees
with the specification's description `resolve_fabric_spec` on all four
fields the spec names: `total_stretch_pct` (elastane x construction
multiplier, overridden by the named fabric's typical stretch at zero
elastane), `effective_gsm` (gsm x fiber multiplier), `cling_risk_base`
(the clamped three-factor average) and `is_structured` (structured OR
lined).  On that domain the source's extra `typical_stretch > 0` guard
and its `min 1` (instead of a two-sided clamp) are invisible: lookup
stretches are nonnegative, so the two definitions coincide.  The
nonnegativity hypothesis is necessary — see the counterexample. -/
theorem C4_fabric_resolver (g : GarmentProfile) (h : 0 ≤ g.elastane_pct) :
    fabricSpecOf (resolve_fabric_properties g) = resolve_fabric_spec g := by
  rcases hfn : g.fabric_name with _ | nm
  · rcases hc : g.construction <;>
      simp [fabricSpecOf, resolve_fabric_properties, resolve_fabric_spec, hfn, hc,
        elastaneMultiplier, constructionStr] <;>
      rw [cling_min_eq_clamp (mul_nonneg h (by norm_num))]
  · rcases hfd : get_fabric_data nm with _ | ts
    · rcases hc : g.construction <;>
        simp [fabricSpecOf, resolve_fabric_properties, resolve_fabric_spec, hfn, hfd, hc,
          elastaneMultiplier, constructionStr] <;>
        rw [cling_min_eq_clamp (mul_nonneg h (by norm_num))]
    · have hts : (0:ℚ) ≤ ts := lookup_nonneg fabricLookup_nonneg hfd
      by_cases he : g.elastane_pct = 0
      · by_cases hpos : ts > 0
        · simp [fabricSpecOf, resolve_fabric_properties, resolve_fabric_spec, hfn, hfd, he, hpos]
          rw [cling_min_eq_clamp hts]
        · have hts0 : ts = 0 := le_antisymm (not_lt.mp hpos) hts
          simp [fabricSpecOf, resolve_fabric_properties, resolve_fabric_spec, hfn, hfd, he,
            hpos, hts0]
          rw [min_one_eq_clamp (by
            have h1 : (0:ℚ) ≤ 0 ⊔ (1 - g.gsm_estimated * fiberGsmMultiplier g.primary_fiber / 300) :=
              le_max_left _ _
            have h2 : (0:ℚ) ≤ 0 ⊔ (1 - g.surface_friction) := le_max_left _ _
            linarith)]
      · rcases hc : g.construction <;>
          simp [fabricSpecOf, resolve_fabric_properties, resolve_fabric_spec, hfn, hfd, he, hc,
            elastaneMultiplier, constructionStr] <;>
          rw [cling_min_eq_clamp (mul_nonneg h (by norm_num))]

/-- Claim C4 (witness): the field agreement evaluated on the default
garment, whose elastane percentage (0.05) is nonnegative. -/
theorem C4_witness :
    (0:ℚ) ≤ defaultGarment.elastane_pct ∧
    fabricSpecOf (resolve_fabric_properties defaultGarment) =
      resolve_fabric_spec defaultGarment :=
  ⟨by decide, C4_fabric_resolver defaultGarment (by decide)⟩

end Kridha

namespace Kridha

set_option maxHeartbeats 2000000 in
/-- Claim C10: for every garment and body, `translate_hemline` assigns
`hem_zone` to one of the nine recognized zone strings — the ordered
threshold chain is exhaustive — and consequently `score_hemline` never
takes its `Unknown zone` fallback: its N/A flag is always `false`. -/
theorem C10_hem_zone_exhaustive (g : GarmentProfile) (b : BodyProfile) :
    (translate_hemline g b).hem_zone ∈ ["above_knee", "above_knee_near", "knee_danger",
      "safe_zone", "collapsed_zone", "calf_danger", "below_calf", "ankle", "floor"] ∧
    (score_hemline g b).2 = false := by
  have hz : (translate_hemline g b).hem_zone ∈ ["above_knee", "above_knee_near", "knee_danger",
      "safe_zone", "collapsed_zone", "calf_danger", "below_calf", "ankle", "floor"] := by
    simp only [translate_hemline]
    split_ifs <;> decide
  refine ⟨hz, ?_⟩
  simp only [List.mem_cons, List.mem_singleton, List.not_mem_nil, or_false] at hz
  rcases hz with h | h | h | h | h | h | h | h | h <;>
    simp [score_hemline, h]

end Kridha

namespace Kridha

/-- Helper: `classify_garment` reads the profile's own `category` only in
its final fallback. -/
theorem classify_getD (g : GarmentProfile) :
    classify_garment g =
      (titleMatchOf g).getD
        (if g.rise ≠ none ∧ g.leg_shape ≠ none then GarmentCategory.bottom_pants
         else if g.skirt_construction ≠ none then GarmentCategory.skirt
         else if g.jacket_closure ≠ none then GarmentCategory.jacket
         else g.category) := by
  rcases htm : titleMatchOf g with _ | c <;> simp [classify_garment, htm]

/-- Helper: overwriting `category` changes `classify_garment` only in the
final fallback. -/
theorem classify_update (g : GarmentProfile) (c : GarmentCategory) :
    classify_garment { g with category := c } =
      (titleMatchOf g).getD
        (if g.rise ≠ none ∧ g.leg_shape ≠ none then GarmentCategory.bottom_pants
         else if g.skirt_construction ≠ none then GarmentCategory.skirt
         else if g.jacket_closure ≠ none then GarmentCategory.jacket
         else c) := by
  have htm' : titleMatchOf { g with category := c } = titleMatchOf g := rfl
  rcases htm : titleMatchOf g with _ | c' <;> simp [classify_garment, htm', htm]

/-- Helper: the category write-back is idempotent. -/
theorem classify_idem (g : GarmentProfile) :
    classify_garment { g with category := classify_garment g } = classify_garment g := by
  rw [classify_update]
  rcases htm : titleMatchOf g with _ | c
  · rw [classify_getD, htm]
    simp only [Option.getD_none]
    split_ifs <;> rfl
  · simp [classify_getD, htm]

/-- Claim C9: `score_garment` mutates its garment argument in exactly one
way — it writes `classify_garment g` into `category`, leaving every other
field (and the whole body profile, which the embedding keeps immutable)
untouched — and re-classifying the written-back garment yields the same
category again. -/
theorem C9_category_writeback (g : GarmentProfile) (b : BodyProfile)
    (context : Option Context) :
    (score_garment_full g b context).2 = { g with category := classify_garment g } ∧
    classify_garment { g with category := classify_garment g } = classify_garment g :=
  ⟨rfl, classify_idem g⟩

end Kridha

namespace Kridha

/-- Claim C7: whenever no principle result is applicable, the composite
layer short-circuits to the neutral `ScoreResult` — overall score 5.0,
composite 0, confidence 0.50, no zone scores and no fixes — so no
division by zero ever happens.  (Stated over `composite_layer`, the
Layer-7 aggregation `score_garment` calls: through `score_garment` itself
the hypothesis is never satisfied, because the always-applicable
Dark/Black Slimming principle is present on every path.) -/
theorem C7_neutral_short_circuit (rs : List PrincipleResult)
    (goals : List StylingGoal) (gv : List GoalVerdict)
    (ba : BodyAdjustedGarment) (exs : List ExceptionTriggered)
    (h : activeOf rs = []) :
    composite_layer rs goals gv ba exs =
      { overall_score := 5, composite_raw := 0, confidence := 0.50,
        principle_scores := rs, goal_verdicts := gv, zone_scores := [],
        exceptions := exs, fixes := [], body_adjusted := ba } := by
  simp only [composite_layer, h, if_pos]

/-- Claim C7 (witness): the short circuit evaluated on a result list whose
single entry is inapplicable. -/
theorem C7_witness :
    activeOf c7Results = [] ∧
    composite_layer c7Results [] [] {} [] =
      { overall_score := 5, composite_raw := 0, confidence := 0.50,
        principle_scores := c7Results, goal_verdicts := [], zone_scores := [],
        exceptions := [], fixes := [], body_adjusted := {} } :=
  ⟨by decide, C7_neutral_short_circuit c7Results [] [] {} [] (by decide)⟩

end Kridha

namespace Kridha

/-- Helper: overwriting the weight of an applicable result does not change
its calibration-invariant view. -/
theorem calibView_set_weight (r : PrincipleResult) (w : ℚ)
    (hr : r.applicable = true) :
    calibView { r with weight := w } = calibView r := by
  simp [calibView, hr]

/-- Helper: Layer 3 calibration only rescales the weights of applicable
results — the `calibView` projection (name, applicability, score, N/A
flag, confidence, and the weight of inapplicable results) of the output
is the accumulator's followed by the input's, untouched. -/
theorem calibrateGo_view (goals : List StylingGoal) :
    ∀ (l : List PrincipleResult) (acc : List (PrincipleResult × ℚ)),
      (calibrateGo goals acc l).map (fun p => calibView p.1) =
        acc.reverse.map (fun p => calibView p.1) ++ l.map calibView := by
  intro l
  induction l with
  | nil => intro acc; simp [calibrateGo]
  | cons r rest ih =>
    intro acc
    rw [calibrateGo]
    by_cases hr : r.applicable = true
    · rw [if_pos hr, ih]
      simp [calibView_set_weight _ _ hr]
    · rw [if_neg hr, ih]
      simp

/-- Helper: every applicable result leaving Layer 3 has weight at most
35% of the applicable-weight total recorded *at the moment it was
capped* (its cap base). -/
theorem calibrateGo_cap (goals : List StylingGoal) :
    ∀ (l : List PrincipleResult) (acc : List (PrincipleResult × ℚ)),
      (∀ p ∈ acc, p.1.applicable = true → p.1.weight ≤ 0.35 * p.2) →
      ∀ p ∈ calibrateGo goals acc l, p.1.applicable = true → p.1.weight ≤ 0.35 * p.2 := by
  intro l
  induction l with
  | nil =>
    intro acc hacc p hp
    rw [calibrateGo] at hp
    exact hacc p (List.mem_reverse.mp hp)
  | cons r rest ih =>
    intro acc hacc p hp
    rw [calibrateGo] at hp
    by_cases hr : r.applicable = true
    · rw [if_pos hr] at hp
      refine ih _ ?_ p hp
      intro q hq
      rcases List.mem_cons.mp hq with hq1 | hq2
      · subst hq1
        intro _
        simp
      · exact hacc q hq2
    · rw [if_neg hr] at hp
      refine ih _ ?_ p hp
      intro q hq
      rcases List.mem_cons.mp hq with hq1 | hq2
      · subst hq1
        intro hap
        exact absurd hap hr
      · exact hacc q hq2

/-- Helper: both branches of the composite layer return the calibrated
results unchanged as `principle_scores`. -/
theorem principle_scores_eq (g : GarmentProfile) (b : BodyProfile)
    (ctx : Option Context) :
    (score_garment g b ctx).principle_scores = calibrated_results g b := by
  by_cases h : activeOf (calibrated_results g b) = [] <;>
    simp [score_garment, score_garment_full, composite_layer, h]

/-- Helper: the calibration-invariant views of the calibrated results are
exactly those of the Layer 2 element results. -/
theorem calibrated_view (g : GarmentProfile) (b : BodyProfile) :
    (calibrated_results g b).map calibView = (element_results_of g b).map calibView := by
  have h := calibrateGo_view b.styling_goals (element_results_of g b) []
  simpa [calibrated_results, calibrate_pairs, List.map_map, Function.comp] using h

/-- Helper: each Layer 2 element result has a calibrated counterpart with
the same view. -/
theorem mem_calibrated_of_mem_elements {g : GarmentProfile} {b : BodyProfile}
    {e : PrincipleResult} (he : e ∈ element_results_of g b) :
    ∃ r ∈ calibrated_results g b, calibView r = calibView e := by
  have hm : calibView e ∈ (calibrated_results g b).map calibView := by
    rw [calibrated_view]
    exact List.mem_map_of_mem _ he
  rcases List.mem_map.mp hm with ⟨r, hr, hcv⟩
  exact ⟨r, hr, hcv⟩

/-- Helper: each calibrated result descends from a Layer 2 element result
with the same view. -/
theorem mem_elements_of_mem_calibrated {g : GarmentProfile} {b : BodyProfile}
    {r : PrincipleResult} (hr : r ∈ calibrated_results g b) :
    ∃ e ∈ element_results_of g b, calibView e = calibView r := by
  have hm : calibView r ∈ (element_results_of g b).map calibView := by
    rw [← calibrated_view]
    exact List.mem_map_of_mem _ hr
  rcases List.mem_map.mp hm with ⟨e, he, hcv⟩
  exact ⟨e, he, hcv⟩

set_option maxRecDepth 1000000 in
/-- Claim C3 (counterexample to the claim as stated): on low-rise
bodycon pants for a `look_taller` body, the boosted-and-amplified
`Pant Rise` weight (0.2674) exceeds 35% of the *final* total applicable
weight (0.35 x 0.7074 = 0.24759): the cap uses the running total at
capping time, not the final total. -/
theorem C3_counterexample :
    ∃ r ∈ (score_garment c3Garment c3Body none).principle_scores,
      r.applicable = true ∧
      0.35 * totalWeightOf (score_garment c3Garment c3Body none).principle_scores <
        r.weight := by
  decide

/-- Claim C3 (amended): the 35% weight cap holds relative to each
result's recorded cap base — the applicable-weight total at the moment
that result was capped (earlier results already calibrated, later ones
still raw) — not relative to the final total. -/
theorem C3_running_total_cap (g : GarmentProfile) (b : BodyProfile) :
    ∀ p ∈ calibrate_pairs g b, p.1.applicable = true →
      p.1.weight ≤ 0.35 * p.2 := by
  intro p hp
  exact calibrateGo_cap b.styling_goals (element_results_of g b) []
    (fun q hq => absurd hq (List.not_mem_nil q)) p hp

set_option maxRecDepth 1000000 in
/-- Claim C3 (witness): the amended cap applied to the `Pant Rise` pair
(list position 16) of the counterexample run. -/
theorem C3_amended_witness :
    ((calibrate_pairs c3Garment c3Body).getD 16
        ⟨{ name := "", score := 0, na := false }, 0⟩).1.weight ≤
      0.35 * ((calibrate_pairs c3Garment c3Body).getD 16
        ⟨{ name := "", score := 0, na := false }, 0⟩).2 :=
  C3_running_total_cap c3Garment c3Body _ (by decide) (by decide)

end Kridha

namespace Kridha

/-- Claim C1: the silhouette dominance override.  Whenever the worst
applicable Tent-Concealment / Bodycon-Mapping score is below −0.20, the
body has a slimming-oriented goal (slimming, slim_hips or
hide_midsection), and the confidence-weighted composite over the
applicable principles is strictly positive, `score_garment` returns
`worst_sil x 0.3` (clamped to [−1, 1] and rounded to 4 decimals) as
`composite_raw` instead of the positive composite. -/
theorem C1_silhouette_dominance (g : GarmentProfile) (b : BodyProfile)
    (ctx : Option Context)
    (hsil : worstSilOf (calibrated_results g b) < -0.20)
    (hgoal : hasSlimmingGoals b.styling_goals = true)
    (hpos : 0 < compositePreOf (calibrated_results g b)) :
    (score_garment g b ctx).composite_raw =
      pyRound 4 (clamp1 (worstSilOf (calibrated_results g b) * 0.3)) := by
  have hact : ¬(activeOf (calibrated_results g b) = []) := by
    intro h0
    rw [worstSilOf] at hsil
    simp only [h0, List.filter_nil, List.map_nil] at hsil
    norm_num at hsil
  simp only [score_garment, score_garment_full, composite_layer, hact, if_false]
  rw [if_pos ⟨hsil, hgoal, hpos⟩]

set_option maxRecDepth 1000000 in
/-- Claim C1 (witness): the override evaluated on ankle-length sleeveless
bodycon knit for a pear body with goal `hide_midsection`: the Bodycon
Mapping score −0.30 vetoes the positive composite (1217/23900 > 0),
giving composite_raw = round(−0.30 x 0.3, 4) = −0.09. -/
theorem C1_witness :
    worstSilOf (calibrated_results c1Garment c1Body) < -0.20 ∧
    hasSlimmingGoals c1Body.styling_goals = true ∧
    0 < compositePreOf (calibrated_results c1Garment c1Body) ∧
    (score_garment c1Garment c1Body none).composite_raw =
      pyRound 4 (clamp1 (worstSilOf (calibrated_results c1Garment c1Body) * 0.3)) :=
  ⟨by decide, by decide, by decide,
   C1_silhouette_dominance c1Garment c1Body none (by decide) (by decide) (by decide)⟩

end Kridha

namespace Kridha

/-- Helper: the name field of a Layer 2 scored result. -/
theorem mkScoredResult_name (name : String)
    (scorer : GarmentProfile → BodyProfile → ℚ × Bool)
    (g : GarmentProfile) (b : BodyProfile) (pr w c : ℚ) :
    (mkScoredResult name scorer g b pr w c).name = name := rfl

set_option maxHeartbeats 1000000 in
/-- Helper: for pants, Layer 2 marks the five skipped principles
inapplicable with weight 0. -/
theorem element_results_pants_skip (g : GarmentProfile) (b : BodyProfile) (pr : ℚ) :
    ∀ r ∈ element_results g b pr GarmentCategory.bottom_pants,
      r.name ∈ (["Hemline", "Sleeve", "V-Neck Elongation", "Neckline Compound",
        "Rise Elongation"] : List String) →
      r.applicable = false ∧ r.weight = 0 := by
  intro r hr hname
  rw [element_results] at hr
  rcases List.mem_append.mp hr with h1 | h2
  · rcases List.mem_map.mp h1 with ⟨e, he, rfl⟩
    fin_cases he <;> simp_all [scorersToSkip, mkScoredResult_name]
  · simp only [extraScorerNames, typeScorerFn] at h2
    simp at h2
    rcases h2 with h | h <;> subst h <;> simp [mkScoredResult_name] at hname

/-- Helper: the Pant Rise result Layer 2 appends for pants. -/
theorem pant_rise_mem (g : GarmentProfile) (b : BodyProfile) (pr : ℚ) :
    mkScoredResult "Pant Rise" score_pant_rise g b pr
      (typeScorerWeight "Pant Rise") 0.70 ∈
      element_results g b pr GarmentCategory.bottom_pants := by
  rw [element_results]
  refine List.mem_append_right _ ?_
  simp [extraScorerNames, typeScorerFn]

/-- Helper: the Leg Shape result Layer 2 appends for pants. -/
theorem leg_shape_mem (g : GarmentProfile) (b : BodyProfile) (pr : ℚ) :
    mkScoredResult "Leg Shape" score_leg_shape g b pr
      (typeScorerWeight "Leg Shape") 0.70 ∈
      element_results g b pr GarmentCategory.bottom_pants := by
  rw [element_results]
  refine List.mem_append_right _ ?_
  simp [extraScorerNames, typeScorerFn]

/-- Helper: a scorer that does not flag N/A yields an applicable result —
the applicability gate needs both a near-zero score and the N/A flag. -/
theorem mkScoredResult_applicable_of_not_na (name : String)
    (scorer : GarmentProfile → BodyProfile → ℚ × Bool)
    (g : GarmentProfile) (b : BodyProfile) (pr w c : ℚ)
    (h : (scorer g b).2 = false) :
    (mkScoredResult name scorer g b pr w c).applicable = true := by
  simp [mkScoredResult, h]

set_option maxRecDepth 1000000 in
/-- Claim C5 (counterexample to the claim as stated): a pants garment
carrying no rise data still routes through the Pant Rise scorer, but the
scorer returns its N/A fallback and the result is marked inapplicable —
the claim's "must include applicable Pant Rise results" fails. -/
theorem C5_counterexample :
    c5Garment.category = GarmentCategory.bottom_pants ∧
    ((score_garment c5Garment defaultBody none).principle_scores.filter
        (fun r => r.name = "Pant Rise")).map (fun r => r.applicable) = [false] := by
  decide

/-- Claim C5 (amended): for every garment that classifies as pants (the
category the claim fixes can itself be overridden by a title keyword,
hence the hypothesis on `classify_garment`), the score result marks the
five skipped principles — Hemline, Sleeve, V-Neck Elongation, Neckline
Compound, Rise Elongation — inapplicable with weight 0, and contains
Pant Rise and Leg Shape results; those are applicable provided the two
pant scorers actually return scored (non-N/A) verdicts, which requires
recognized rise and leg-shape data. -/
theorem C5_pants_routing (g : GarmentProfile) (b : BodyProfile)
    (ctx : Option Context)
    (hcat : classify_garment g = GarmentCategory.bottom_pants)
    (hpr : (score_pant_rise (pipeline_garment g) b).2 = false)
    (hls : (score_leg_shape (pipeline_garment g) b).2 = false) :
    (∀ r ∈ (score_garment g b ctx).principle_scores,
        r.name ∈ (["Hemline", "Sleeve", "V-Neck Elongation", "Neckline Compound",
          "Rise Elongation"] : List String) →
        r.applicable = false ∧ r.weight = 0) ∧
    (∃ r ∈ (score_garment g b ctx).principle_scores,
        r.name = "Pant Rise" ∧ r.applicable = true) ∧
    (∃ r ∈ (score_garment g b ctx).principle_scores,
        r.name = "Leg Shape" ∧ r.applicable = true) := by
  have hcat' : pipeline_category g = GarmentCategory.bottom_pants := hcat
  have helems : element_results_of g b =
      element_results (pipeline_garment g) b
        (get_structured_penalty_reduction (pipeline_exceptions g b))
        GarmentCategory.bottom_pants := by
    rw [element_results_of, hcat']
  refine ⟨?_, ?_, ?_⟩
  · intro r hr hname
    rw [principle_scores_eq] at hr
    obtain ⟨e, he, hview⟩ := mem_elements_of_mem_calibrated hr
    rw [helems] at he
    have hn : e.name = r.name := congrArg CalibView.name hview
    have happ : e.applicable = r.applicable := congrArg CalibView.applicable hview
    have hfz : (if e.applicable then (0:ℚ) else e.weight) =
        (if r.applicable then (0:ℚ) else r.weight) :=
      congrArg CalibView.frozen_weight hview
    have hfacts := element_results_pants_skip (pipeline_garment g) b _ e he
      (by rw [hn]; exact hname)
    refine ⟨happ ▸ hfacts.1, ?_⟩
    rw [hfacts.1] at hfz
    rw [← happ, hfacts.1] at hfz
    simpa [hfacts.2] using hfz.symm
  · obtain ⟨r, hr, hview⟩ := mem_calibrated_of_mem_elements
      (helems ▸ pant_rise_mem (pipeline_garment g) b
        (get_structured_penalty_reduction (pipeline_exceptions g b)))
    have hn : r.name = "Pant Rise" := congrArg CalibView.name hview
    have ha : r.applicable =
        (mkScoredResult "Pant Rise" score_pant_rise (pipeline_garment g) b
          (get_structured_penalty_reduction (pipeline_exceptions g b))
          (typeScorerWeight "Pant Rise") 0.70).applicable :=
      congrArg CalibView.applicable hview
    refine ⟨r, by rw [principle_scores_eq]; exact hr, hn, ?_⟩
    rw [ha, mkScoredResult_applicable_of_not_na _ _ _ _ _ _ _ hpr]
  · obtain ⟨r, hr, hview⟩ := mem_calibrated_of_mem_elements
      (helems ▸ leg_shape_mem (pipeline_garment g) b
        (get_structured_penalty_reduction (pipeline_exceptions g b)))
    have hn : r.name = "Leg Shape" := congrArg CalibView.name hview
    have ha : r.applicable =
        (mkScoredResult "Leg Shape" score_leg_shape (pipeline_garment g) b
          (get_structured_penalty_reduction (pipeline_exceptions g b))
          (typeScorerWeight "Leg Shape") 0.70).applicable :=
      congrArg CalibView.applicable hview
    refine ⟨r, by rw [principle_scores_eq]; exact hr, hn, ?_⟩
    rw [ha, mkScoredResult_applicable_of_not_na _ _ _ _ _ _ _ hls]

set_option maxRecDepth 1000000 in
/-- Claim C5 (witness): the amended routing evaluated on pants carrying
recognized rise ("high") and leg-shape ("straight") data. -/
theorem C5_amended_witness :
    classify_garment c5PantsGarment = GarmentCategory.bottom_pants ∧
    ((∀ r ∈ (score_garment c5PantsGarment defaultBody none).principle_scores,
        r.name ∈ (["Hemline", "Sleeve", "V-Neck Elongation", "Neckline Compound",
          "Rise Elongation"] : List String) →
        r.applicable = false ∧ r.weight = 0) ∧
     (∃ r ∈ (score_garment c5PantsGarment defaultBody none).principle_scores,
        r.name = "Pant Rise" ∧ r.applicable = true) ∧
     (∃ r ∈ (score_garment c5PantsGarment defaultBody none).principle_scores,
        r.name = "Leg Shape" ∧ r.applicable = true)) :=
  ⟨by decide,
   C5_pants_routing c5PantsGarment defaultBody none (by decide) (by decide) (by decide)⟩

end Kridha

namespace Kridha

/-- Helper: the confidence field of a Layer 2 scored result. -/
theorem mkScoredResult_confidence (name : String)
    (scorer : GarmentProfile → BodyProfile → ℚ × Bool)
    (g : GarmentProfile) (b : BodyProfile) (pr w c : ℚ) :
    (mkScoredResult name scorer g b pr w c).confidence = c := rfl

set_option maxHeartbeats 1000000 in
/-- Helper: every Layer 2 result carries confidence 0.70 — the generic
confidence lookup finds no key (its derived keys never match the static
table) and type scorers hard-code 0.70 — except the skip placeholders,
which are inapplicable with confidence 0. -/
theorem element_results_confidence (g : GarmentProfile) (b : BodyProfile)
    (pr : ℚ) (cat : GarmentCategory) :
    ∀ r ∈ element_results g b pr cat,
      r.confidence = 0.70 ∨ (r.applicable = false ∧ r.confidence = 0) := by
  intro r hr
  rw [element_results] at hr
  rcases List.mem_append.mp hr with h1 | h2
  · rcases List.mem_map.mp h1 with ⟨e, he, rfl⟩
    fin_cases he <;>
      (dsimp only; split_ifs) <;>
      first
        | exact Or.inr ⟨rfl, rfl⟩
        | exact Or.inl (by rw [mkScoredResult_confidence]; decide)
  · rcases List.mem_filterMap.mp h2 with ⟨nm, hnm, heq⟩
    obtain ⟨f, hf, hmk⟩ := Option.map_eq_some'.mp heq
    rw [← hmk]
    exact Or.inl rfl

/-- Helper: summing a constant confidence over a list. -/
theorem sum_map_confidence_const (l : List PrincipleResult) (c : ℚ)
    (h : ∀ r ∈ l, r.confidence = c) :
    (l.map (fun r => r.confidence)).sum = c * l.length := by
  induction l with
  | nil => simp
  | cons x xs ih =>
    simp only [List.map_cons, List.sum_cons, List.length_cons,
      h x (List.mem_cons_self x xs),
      ih (fun y hy => h y (List.mem_cons_of_mem _ hy))]
    push_cast
    ring

/-- Helper: a constant confidence factors out of a weighted sum. -/
theorem sum_map_mul_confidence (l : List PrincipleResult)
    (f : PrincipleResult → ℚ) (c : ℚ) (h : ∀ r ∈ l, r.confidence = c) :
    (l.map (fun r => f r * r.confidence)).sum = (l.map f).sum * c := by
  induction l with
  | nil => simp
  | cons x xs ih =>
    simp only [List.map_cons, List.sum_cons,
      h x (List.mem_cons_self x xs),
      ih (fun y hy => h y (List.mem_cons_of_mem _ hy))]
    ring

set_option maxRecDepth 1000000 in
/-- Claim C8 (counterexample to the claim as stated): a plain top's
skipped Hemline principle is returned with confidence 0.0, not 0.70 —
"every principle result has confidence exactly 0.70" fails on skip
placeholders. -/
theorem C8_counterexample :
    ((score_garment c8TopGarment defaultBody none).principle_scores.filter
        (fun r => r.name = "Hemline")).map (fun r => r.confidence) = [0] := by
  decide

/-- Claim C8 (amended): every returned principle result has confidence
0.70 or — skip placeholders only, always inapplicable — 0; every
applicable one has exactly 0.70.  Consequently the result confidence is
0.70 whenever anything is applicable, and the constant confidence cancels
from the weighted composite. -/
theorem C8_confidence_everywhere (g : GarmentProfile) (b : BodyProfile)
    (ctx : Option Context) :
    (∀ r ∈ (score_garment g b ctx).principle_scores,
        (r.applicable = true → r.confidence = 0.70) ∧
        (r.confidence = 0.70 ∨ r.confidence = 0)) ∧
    (activeOf (calibrated_results g b) ≠ [] →
      (score_garment g b ctx).confidence = 0.70) ∧
    compositePreOf (calibrated_results g b) =
      (if totalWeightOf (calibrated_results g b) = 0 then 0
       else ((activeOf (calibrated_results g b)).map (fun r => r.score * r.weight)).sum /
            ((activeOf (calibrated_results g b)).map (fun r => r.weight)).sum) := by
  have hps : ∀ r ∈ calibrated_results g b,
      (r.applicable = true → r.confidence = 0.70) ∧
      (r.confidence = 0.70 ∨ r.confidence = 0) := by
    intro r hr
    obtain ⟨e, he, hview⟩ := mem_elements_of_mem_calibrated hr
    have hc : e.confidence = r.confidence := congrArg CalibView.confidence hview
    have ha : e.applicable = r.applicable := congrArg CalibView.applicable hview
    rcases element_results_confidence (pipeline_garment g) b
        (get_structured_penalty_reduction (pipeline_exceptions g b))
        (pipeline_category g) e he with h7 | ⟨hap, h0⟩
    · exact ⟨fun _ => by rw [← hc]; exact h7, Or.inl (by rw [← hc]; exact h7)⟩
    · refine ⟨fun hap' => ?_, Or.inr (by rw [← hc]; exact h0)⟩
      rw [ha] at hap
      exact absurd hap' (by simp [hap])
  have hconf : ∀ r ∈ activeOf (calibrated_results g b), r.confidence = 0.70 := by
    intro r hr
    have hmem : r ∈ calibrated_results g b := List.mem_of_mem_filter hr
    have happ : r.applicable = true := List.of_mem_filter hr
    exact (hps r hmem).1 happ
  refine ⟨?_, ?_, ?_⟩
  · intro r hr
    rw [principle_scores_eq] at hr
    exact hps r hr
  · intro hact
    simp only [score_garment, score_garment_full, composite_layer, hact, if_false]
    rw [sum_map_confidence_const _ 0.70 hconf]
    have hlen : ((activeOf (calibrated_results g b)).length : ℚ) ≠ 0 :=
      Nat.cast_ne_zero.mpr (fun h0 => hact (List.length_eq_zero.mp h0))
    rw [mul_div_assoc, div_self hlen, mul_one]
    decide
  · rw [compositePreOf]
    by_cases htw : totalWeightOf (calibrated_results g b) = 0
    · rw [if_pos htw, if_pos htw]
    · rw [if_neg htw, if_neg htw]
      have hnum := sum_map_mul_confidence (activeOf (calibrated_results g b))
        (fun r => r.score * r.weight) 0.70 hconf
      have hden := sum_map_mul_confidence (activeOf (calibrated_results g b))
        (fun r => r.weight) 0.70 hconf
      simp only [] at hnum hden
      rw [hnum, hden, mul_div_mul_right _ _ (show (0.70:ℚ) ≠ 0 by norm_num)]

set_option maxRecDepth 1000000 in
/-- Claim C8 (witness): the default garment/body run has applicable
principles, so its result confidence is exactly 0.70. -/
theorem C8_amended_witness :
    activeOf (calibrated_results defaultGarment defaultBody) ≠ [] ∧
    (score_garment defaultGarment defaultBody none).confidence = 0.70 :=
  ⟨by decide,
   (C8_confidence_everywhere defaultGarment defaultBody none).2.1 (by decide)⟩

end Kridha
